import Mathlib

/-!
Shallow embedding of the darkpool core settlement engine:
`src/contracts-stylus/src/contracts/darkpool_core.rs` together with the helpers in
`src/contracts-stylus/src/utils/helpers.rs`.

Modelling conventions:
* A BN254 scalar field element is represented by its canonical integer value, a `Nat`
  smaller than `SCALAR_MOD`; a `U256` is represented by an arbitrary `Nat` below `2^256`
  (the bound is irrelevant to every property proved here).
* Byte blobs (proofs, verification keys, serialized public inputs, signatures) are
  `List Nat` values whose contents are opaque to the engine; byte concatenation is
  list append, matching the `concat` calls in the source.
* The contract's storage mutations, external (delegate/static) calls and emitted EVM
  events are threaded through the state-passing monad `EngineM`: external calls and
  events are recorded, in order, in the `calls` and `events` traces of `ExecState`.
* The behavior of the external collaborators (Merkle contract, vkeys contract,
  verifier contract, transfer executor) and of the serialization routines living in
  crates outside `src/` is abstracted into the oracle functions of `DpEnv`.
* A Rust `panic!` (e.g. the `unwrap` in `get_public_blinder_from_shares`) is the
  `Outcome.panicked` result, distinct from an ordinary `Err` return value.
* The `if_verifying!` macro compiles to one of two bodies depending on the build-time
  `no-verify` feature; following the spec's design note it is modelled as a runtime
  flag `DpEnv.verifying` together with the chain-id guard of the macro's second arm.
-/

/-- Modelled from the spec: the BN254 scalar-field modulus. The contract's `ScalarField`
is a "Bn254 scalar field element" (storage docs of `nullifier_set` in darkpool_core.rs);
the concrete modulus comes from the external `ark_bn254` crate, which is not under src/.
`ScalarField.from_bigint` returns `None` exactly when the integer is not below it. -/
def SCALAR_MOD : Nat :=
  21888242871839275222246405745257275088548364400416034343698204186575808495617

/-- Modelled from the spec: the designated test-network chain id (`DEVNET_CHAINID` from
the external `contracts_common::constants` crate, not under src/). Its concrete value is
irrelevant: the engine only ever compares the current chain id against it. -/
def DEVNET_CHAINID : Nat := 473474

/-- Error kinds of the engine. Each constructor stands for one of the byte-string error
message constants from `utils/constants.rs`; `extRevert` carries the revert payload of a
failed external call (`map_call_error` on `Error::Revert`). -/
inductive DarkpoolErr where
  | calldataDeser
  | calldataSer
  | retdataDecoding
  | nullifierSpentErr
  | publicBlinderUsed
  | rootNotInHistory
  | verificationFailed
  | invalidOrderSettlementIndices
  | invalidProtocolFee
  | invalidProtocolPubkey
  | scalarConversion
  | invalidArrLen
  | verificationDisabled
  | extRevert (msg : List Nat)
deriving DecidableEq

/-- EVM events emitted by the engine (`evm::log` calls in darkpool_core.rs). -/
inductive DpEvent where
  | nullifierSpent (nullifier : Nat)
  | walletUpdated (wallet_blinder_share : Nat)
  | notePosted (note_commitment : Nat)
deriving DecidableEq

/-- Selectors of the vkeys-contract getters fetched via `fetch_vkeys`. -/
inductive Selector where
  | validWalletCreateVkey
  | validWalletUpdateVkey
  | processMatchSettleVkeys
  | validRelayerFeeSettlementVkey
  | validOfflineFeeSettlementVkey
  | validFeeRedemptionVkey
deriving DecidableEq

/-- Selectors of the verifier contract methods used by `call_verifier`. -/
inductive VerifySelector where
  | verifySingle
  | verifyMatch
deriving DecidableEq

/-- External (static/delegate) calls issued by the engine, recorded in order. -/
inductive ExtCall where
  | rootInHistory (root : Nat)
  | fetchVkeys (sel : Selector)
  | callVerifier (sel : VerifySelector) (args : List Nat)
  | insertShares (leaf : List Nat)
  | insertSignedShares (leaf : List Nat) (sig : List Nat) (pk : List Nat)
  | insertNote (note : Nat)
  | executeTransfer (pk : List Nat) (transfer : List Nat) (aux : List Nat)
deriving DecidableEq

/-- The storage fields of `DarkpoolCoreContract` that the engine reads or writes.
The two `StorageMap<U256, StorageBool>` sets are modelled as membership lists. -/
structure DpStorage where
  nullifier_set : List Nat
  public_blinder_set : List Nat
  protocol_fee : Nat
  protocol_pubkey_x : Nat
  protocol_pubkey_y : Nat
deriving DecidableEq

/-- Execution state of one engine call: contract storage plus the ordered traces of
external calls issued and events emitted so far. -/
structure ExecState where
  store : DpStorage
  calls : List ExtCall
  events : List DpEvent
deriving DecidableEq

/-- Initial execution state of an entry-point call: given storage, empty traces. -/
def ExecState.init (st : DpStorage) : ExecState := ⟨st, [], []⟩

/-- Result of running an engine computation: an `Ok` value, an `Err` return value
(the Rust `Result::Err`), or a panic (Rust `panic!`, which aborts rather than returns). -/
inductive Outcome (α : Type) where
  | ok (a : α)
  | err (e : DarkpoolErr)
  | panicked
deriving DecidableEq

/-- The engine monad: state passing over `ExecState` with `Outcome`-valued results. -/
abbrev EngineM (α : Type) : Type := ExecState → Outcome α × ExecState

/-- Monad unit for `EngineM`. -/
def EngineM.pure (a : α) : EngineM α := fun s => (.ok a, s)

/-- Monad sequencing for `EngineM`: `Err` and panic short-circuit, as `?` does in Rust. -/
def EngineM.bind (m : EngineM α) (f : α → EngineM β) : EngineM β := fun s =>
  match m s with
  | (.ok a, t) => f a t
  | (.err e, t) => (.err e, t)
  | (.panicked, t) => (.panicked, t)

instance : Monad EngineM where
  pure := EngineM.pure
  bind := EngineM.bind

/-- Returns an `Err` result, leaving the state unchanged. -/
def throwErr (e : DarkpoolErr) : EngineM α := fun s => (.err e, s)

/-- Models a Rust panic: aborts with the `panicked` outcome. -/
def panicked : EngineM α := fun s => (.panicked, s)

/-- The `assert_result!` macro from helpers.rs: `Ok(())` if the condition holds,
otherwise `Err` with the given message. -/
def assertResult (b : Bool) (e : DarkpoolErr) : EngineM Unit :=
  if b then EngineM.pure () else throwErr e

/-- Lifts a pure `Result` value into the monad. -/
def liftResult (r : Except DarkpoolErr α) : EngineM α := fun s =>
  match r with
  | .ok a => (.ok a, s)
  | .error e => (.err e, s)

/-- Records an external call in the trace and returns the environment-determined
result of that call (a revert surfaces as an `Err`, via `map_call_error`). -/
def extCall (c : ExtCall) (r : Except DarkpoolErr α) : EngineM α := fun s =>
  match r with
  | .ok a => (.ok a, { s with calls := s.calls ++ [c] })
  | .error e => (.err e, { s with calls := s.calls ++ [c] })

/-- Appends an event to the emission trace (`evm::log`). -/
def emitEvent (e : DpEvent) : EngineM Unit := fun s =>
  (.ok (), { s with events := s.events ++ [e] })

/-- Reads the spent flag of a nullifier from storage (`nullifier_set.get`). -/
def getNullifierSpent (n : Nat) : EngineM Bool := fun s =>
  (.ok (s.store.nullifier_set.contains n), s)

/-- Writes the spent flag of a nullifier (`nullifier_set.insert(n, true)`). -/
def insertNullifier (n : Nat) : EngineM Unit := fun s =>
  (.ok (), { s with store := { s.store with nullifier_set := n :: s.store.nullifier_set } })

/-- Reads the used flag of a public blinder (`public_blinder_set.get`). -/
def getBlinderUsed (b : Nat) : EngineM Bool := fun s =>
  (.ok (s.store.public_blinder_set.contains b), s)

/-- Writes the used flag of a public blinder (`public_blinder_set.insert(b, true)`). -/
def insertBlinder (b : Nat) : EngineM Unit := fun s =>
  (.ok (), { s with store := { s.store with public_blinder_set := b :: s.store.public_blinder_set } })

/-- Reads the stored protocol fee (`protocol_fee.get()`). -/
def getProtocolFee : EngineM Nat := fun s => (.ok s.store.protocol_fee, s)

/-- Reads the two stored protocol public-encryption-key words
(`protocol_public_encryption_key.get(0)/get(1)`; the array has fixed size 2, so the
source's `unwrap`s cannot fail). -/
def getProtocolPubkeyWords : EngineM (Nat × Nat) := fun s =>
  (.ok (s.store.protocol_pubkey_x, s.store.protocol_pubkey_y), s)

/-- Statement of `VALID WALLET CREATE` (fields used by the engine). -/
structure ValidWalletCreateStatement where
  private_shares_commitment : Nat
  public_wallet_shares : List Nat
deriving DecidableEq

/-- Statement of `VALID WALLET UPDATE` (fields used by the engine). -/
structure ValidWalletUpdateStatement where
  old_shares_nullifier : Nat
  new_private_shares_commitment : Nat
  new_public_shares : List Nat
  merkle_root : Nat
  external_transfer : Option Nat
  old_pk_root : Nat
deriving DecidableEq

/-- Statement of `VALID COMMITMENTS`; the engine only inspects its settlement indices,
modelled as one opaque value compared for equality. -/
structure ValidCommitmentsStatement where
  indices : Nat
deriving DecidableEq

/-- Statement of `VALID REBLIND` (fields used by the engine). -/
structure ValidReblindStatement where
  original_shares_nullifier : Nat
  reblinded_private_shares_commitment : Nat
  merkle_root : Nat
deriving DecidableEq

/-- A party's match payload: its commitments and reblind statements. -/
structure MatchPayload where
  valid_commitments_statement : ValidCommitmentsStatement
  valid_reblind_statement : ValidReblindStatement
deriving DecidableEq

/-- Statement of `VALID MATCH SETTLE` (fields used by the engine). -/
structure ValidMatchSettleStatement where
  party0_indices : Nat
  party1_indices : Nat
  party0_modified_shares : List Nat
  party1_modified_shares : List Nat
  protocol_fee : Nat
deriving DecidableEq

/-- Statement of `VALID RELAYER FEE SETTLEMENT` (fields used by the engine). -/
structure ValidRelayerFeeSettlementStatement where
  sender_root : Nat
  recipient_root : Nat
  sender_nullifier : Nat
  recipient_nullifier : Nat
  sender_wallet_commitment : Nat
  recipient_wallet_commitment : Nat
  sender_updated_public_shares : List Nat
  recipient_updated_public_shares : List Nat
  recipient_pk_root : Nat
deriving DecidableEq

/-- Statement of `VALID OFFLINE FEE SETTLEMENT` (fields used by the engine). -/
structure ValidOfflineFeeSettlementStatement where
  merkle_root : Nat
  nullifier : Nat
  updated_wallet_commitment : Nat
  updated_wallet_public_shares : List Nat
  note_commitment : Nat
  protocol_key : Nat × Nat
deriving DecidableEq

/-- Statement of `VALID FEE REDEMPTION` (fields used by the engine). -/
structure ValidFeeRedemptionStatement where
  wallet_root : Nat
  note_root : Nat
  nullifier : Nat
  note_nullifier : Nat
  new_wallet_commitment : Nat
  new_wallet_public_shares : List Nat
  old_pk_root : Nat
deriving DecidableEq

/-- A statement value handed to the statement serializer
(`serialize_statement_for_verification` is generic over the statement type). -/
inductive StatementData where
  | walletCreate (s : ValidWalletCreateStatement)
  | walletUpdate (s : ValidWalletUpdateStatement)
  | relayerFee (s : ValidRelayerFeeSettlementStatement)
  | offlineFee (s : ValidOfflineFeeSettlementStatement)
  | feeRedemption (s : ValidFeeRedemptionStatement)
deriving DecidableEq

/-- An opaque calldata byte buffer for a statement of type `α`: postcard decoding of a
fixed byte string deterministically either yields a value or fails. -/
inductive Calldata (α : Type) where
  | ok (a : α)
  | bad
deriving DecidableEq

/-- The environment of one engine call: the verification mode, the chain id, and the
oracles describing the behavior of the external collaborators and of the serialization
routines defined outside src/. -/
structure DpEnv where
  verifying : Bool
  chainid : Nat
  rootInHistoryFn : Nat → Except DarkpoolErr Bool
  fetchVkeysFn : Selector → Except DarkpoolErr (List Nat)
  callVerifierFn : VerifySelector → List Nat → Except DarkpoolErr Bool
  insertSharesFn : List Nat → Except DarkpoolErr Unit
  insertSignedSharesFn : List Nat → List Nat → List Nat → Except DarkpoolErr Unit
  insertNoteFn : Nat → Except DarkpoolErr Unit
  executeTransferFn : List Nat → List Nat → List Nat → Except DarkpoolErr Unit
  pkToU256sFn : Nat → Option (List Nat)
  serStatementFn : StatementData → Except DarkpoolErr (List Nat)
  serMatchStatementsFn : ValidCommitmentsStatement → ValidCommitmentsStatement →
    ValidReblindStatement → ValidReblindStatement → ValidMatchSettleStatement →
    Except DarkpoolErr (List Nat)
  postcardSerFn : Nat → Except DarkpoolErr (List Nat)

/-- The `if_verifying!` macro from helpers.rs: with verification enabled, run the given
logic; in the `no-verify` build, instead assert that the current chain id is the devnet
chain id, failing with the verification-disabled error otherwise. -/
def if_verifying (env : DpEnv) (logic : EngineM Unit) : EngineM Unit :=
  if env.verifying then logic
  else assertResult (env.chainid == DEVNET_CHAINID) .verificationDisabled

/-- Source `u256_to_scalar` (helpers.rs): a 32-byte integer converts to the scalar with
the same canonical value iff it is below the field modulus; otherwise the conversion
fails with the scalar-conversion error (`ScalarField::from_bigint` returns `None`). -/
def u256_to_scalar (u : Nat) : Except DarkpoolErr Nat :=
  if u < SCALAR_MOD then .ok u else .error .scalarConversion

/-- Source `scalar_to_u256` (contracts_common custom serde): canonical serialization of
a reduced scalar is the identity on its canonical integer value. -/
def scalar_to_u256 (s : Nat) : Nat := s

/-- Source `deserialize_from_calldata` (helpers.rs): postcard decoding, failing with the
calldata-deserialization error. -/
def deserialize_from_calldata (c : Calldata α) : EngineM α :=
  match c with
  | .ok a => EngineM.pure a
  | .bad => throwErr .calldataDeser

/-- Source `get_public_blinder_from_shares` (helpers.rs): the last share; the source's
`shares.last().unwrap()` panics when the share vector is empty. -/
def get_public_blinder_from_shares (shares : List Nat) : EngineM Nat :=
  match shares.getLast? with
  | some b => EngineM.pure b
  | none => panicked

/-- Source `serialize_statement_for_verification` (helpers.rs): statement to public
inputs to postcard bytes; the result and possible failure are environment-determined. -/
def serialize_statement_for_verification (env : DpEnv) (st : StatementData) :
    EngineM (List Nat) :=
  liftResult (env.serStatementFn st)

/-- Source `serialize_match_statements_for_verification` (helpers.rs). -/
def serialize_match_statements_for_verification (env : DpEnv)
    (vc0 vc1 : ValidCommitmentsStatement) (vr0 vr1 : ValidReblindStatement)
    (vms : ValidMatchSettleStatement) : EngineM (List Nat) :=
  liftResult (env.serMatchStatementsFn vc0 vc1 vr0 vr1 vms)

/-- Source `DarkpoolCoreContract::get_protocol_public_encryption_key`. -/
def get_protocol_public_encryption_key (_env : DpEnv) : EngineM (Nat × Nat) := do
  let words ← getProtocolPubkeyWords
  let x ← liftResult (u256_to_scalar words.1)
  let y ← liftResult (u256_to_scalar words.2)
  EngineM.pure (x, y)

/-- Source `DarkpoolCoreContract::check_root_in_history`: delegate-call the Merkle
contract's root-history query and assert the answer. -/
def check_root_in_history (env : DpEnv) (root : Nat) : EngineM Unit := do
  let r := scalar_to_u256 root
  let res ← extCall (.rootInHistory r) (env.rootInHistoryFn r)
  assertResult res .rootNotInHistory

/-- Source `DarkpoolCoreContract::fetch_vkeys`: static-call the vkeys contract. -/
def fetch_vkeys (env : DpEnv) (sel : Selector) : EngineM (List Nat) :=
  extCall (.fetchVkeys sel) (env.fetchVkeysFn sel)

/-- Source `DarkpoolCoreContract::call_verifier`: static-call the verifier contract
with the given selector and argument bytes, reading back a boolean. -/
def call_verifier (env : DpEnv) (sel : VerifySelector) (args : List Nat) :
    EngineM Bool :=
  extCall (.callVerifier sel args) (env.callVerifierFn sel args)

/-- Source `DarkpoolCoreContract::verify`: concatenate key, proof and public inputs
and submit them to the verifier's `verify` method. -/
def verify (env : DpEnv) (vkey_ser proof_ser public_inputs_ser : List Nat) :
    EngineM Bool :=
  call_verifier env .verifySingle (vkey_ser ++ proof_ser ++ public_inputs_ser)

/-- Source `DarkpoolCoreContract::mark_nullifier_spent`: when verifying, assert the
nullifier is unspent; then mark it spent and emit the `NullifierSpent` event. -/
def mark_nullifier_spent (env : DpEnv) (nullifier : Nat) : EngineM Unit := do
  let n := scalar_to_u256 nullifier
  if_verifying env (do
    let spent ← getNullifierSpent n
    assertResult (!spent) .nullifierSpentErr)
  insertNullifier n
  emitEvent (.nullifierSpent n)

/-- Source `DarkpoolCoreContract::mark_public_blinder_used`: unconditionally assert the
blinder is unused, then mark it used. -/
def mark_public_blinder_used (blinder : Nat) : EngineM Unit := do
  let b := scalar_to_u256 blinder
  let used ← getBlinderUsed b
  assertResult (!used) .publicBlinderUsed
  insertBlinder b

/-- Source `DarkpoolCoreContract::prepare_wallet_shares_for_insertion`: the leaf is the
private-shares commitment followed by the public shares, each serialized to a `U256`. -/
def prepare_wallet_shares_for_insertion (private_shares_commitment : Nat)
    (public_wallet_shares : List Nat) : List Nat :=
  scalar_to_u256 private_shares_commitment :: public_wallet_shares.map scalar_to_u256

/-- Source `DarkpoolCoreContract::insert_wallet_commitment_to_merkle_tree`: delegate-call
the Merkle contract's unsigned shares-commitment insertion. -/
def insert_wallet_commitment_to_merkle_tree (env : DpEnv)
    (private_shares_commitment : Nat) (public_wallet_shares : List Nat) :
    EngineM Unit := do
  let leaf := prepare_wallet_shares_for_insertion private_shares_commitment
    public_wallet_shares
  extCall (.insertShares leaf) (env.insertSharesFn leaf)

/-- Source `DarkpoolCoreContract::insert_signed_wallet_commitment_to_merkle_tree`:
convert the signing key to words (failing with the invalid-array-length error), then
delegate-call the Merkle contract's signature-verifying insertion. -/
def insert_signed_wallet_commitment_to_merkle_tree (env : DpEnv)
    (private_shares_commitment : Nat) (public_wallet_shares : List Nat)
    (wallet_commitment_signature : List Nat) (old_pk_root : Nat) : EngineM Unit := do
  let leaf := prepare_wallet_shares_for_insertion private_shares_commitment
    public_wallet_shares
  match env.pkToU256sFn old_pk_root with
  | none => throwErr .invalidArrLen
  | some pkWords =>
      extCall (.insertSignedShares leaf wallet_commitment_signature pkWords)
        (env.insertSignedSharesFn leaf wallet_commitment_signature pkWords)

/-- Source `DarkpoolCoreContract::execute_external_transfer`: postcard-serialize the key
and transfer, then delegate-call the transfer executor. -/
def execute_external_transfer (env : DpEnv) (old_pk_root : Nat) (transfer : Nat)
    (transfer_aux_data_bytes : List Nat) : EngineM Unit := do
  let pkBytes ← liftResult (env.postcardSerFn old_pk_root)
  let transferBytes ← liftResult (env.postcardSerFn transfer)
  extCall (.executeTransfer pkBytes transferBytes transfer_aux_data_bytes)
    (env.executeTransferFn pkBytes transferBytes transfer_aux_data_bytes)

/-- Source `DarkpoolCoreContract::batch_verify_process_match_settle`: fetch the match
vkeys, serialize the five statements, concatenate with the proof blobs and submit to the
verifier's `verifyMatch` method, asserting the result. -/
def batch_verify_process_match_settle (env : DpEnv)
    (party_0_match_payload party_1_match_payload : MatchPayload)
    (valid_match_settle_statement : ValidMatchSettleStatement)
    (match_proofs match_linking_proofs : List Nat) : EngineM Unit := do
  let process_match_settle_vkeys ← fetch_vkeys env .processMatchSettleVkeys
  let match_public_inputs ← serialize_match_statements_for_verification env
    party_0_match_payload.valid_commitments_statement
    party_1_match_payload.valid_commitments_statement
    party_0_match_payload.valid_reblind_statement
    party_1_match_payload.valid_reblind_statement
    valid_match_settle_statement
  let bundle := process_match_settle_vkeys ++ match_proofs ++ match_public_inputs ++
    match_linking_proofs
  let result ← call_verifier env .verifyMatch bundle
  assertResult result .verificationFailed

/-- Source `DarkpoolCoreContract::log_wallet_update`: emit `WalletUpdated` with the
public blinder share of the given shares. -/
def log_wallet_update (public_wallet_shares : List Nat) : EngineM Unit := do
  let b ← get_public_blinder_from_shares public_wallet_shares
  emitEvent (.walletUpdated (scalar_to_u256 b))

/-- Source `DarkpoolCoreContract::check_root_and_nullify`: when verifying, check the
root is historical; then mark the nullifier spent. -/
def check_root_and_nullify (env : DpEnv) (nullifier : Nat) (merkle_root : Nat) :
    EngineM Unit := do
  if_verifying env (check_root_in_history env merkle_root)
  mark_nullifier_spent env nullifier

/-- Source `DarkpoolCoreContract::check_wallet_rotation`: mark the public blinder used,
check the root and nullify the old wallet, then log the wallet update. -/
def check_wallet_rotation (env : DpEnv) (old_wallet_nullifier : Nat)
    (merkle_root : Nat) (new_wallet_public_shares : List Nat) : EngineM Unit := do
  let public_blinder ← get_public_blinder_from_shares new_wallet_public_shares
  mark_public_blinder_used public_blinder
  check_root_and_nullify env old_wallet_nullifier merkle_root
  log_wallet_update new_wallet_public_shares

/-- Source `DarkpoolCoreContract::rotate_wallet`: check the rotation, then insert the
new wallet commitment (unsigned). -/
def rotate_wallet (env : DpEnv) (old_wallet_nullifier : Nat) (merkle_root : Nat)
    (new_wallet_private_shares_commitment : Nat)
    (new_wallet_public_shares : List Nat) : EngineM Unit := do
  check_wallet_rotation env old_wallet_nullifier merkle_root new_wallet_public_shares
  insert_wallet_commitment_to_merkle_tree env new_wallet_private_shares_commitment
    new_wallet_public_shares

/-- Source `DarkpoolCoreContract::rotate_wallet_with_signature`: check the rotation,
then insert the new wallet commitment through the signature-verifying Merkle method. -/
def rotate_wallet_with_signature (env : DpEnv) (old_wallet_nullifier : Nat)
    (merkle_root : Nat) (new_wallet_private_shares_commitment : Nat)
    (new_wallet_public_shares : List Nat)
    (new_wallet_commitment_signature : List Nat) (old_pk_root : Nat) :
    EngineM Unit := do
  check_wallet_rotation env old_wallet_nullifier merkle_root new_wallet_public_shares
  insert_signed_wallet_commitment_to_merkle_tree env
    new_wallet_private_shares_commitment new_wallet_public_shares
    new_wallet_commitment_signature old_pk_root

/-- Source `DarkpoolCoreContract::commit_note`: delegate-call the Merkle contract's note
insertion and emit `NotePosted`. -/
def commit_note (env : DpEnv) (note_commitment : Nat) : EngineM Unit := do
  let n := scalar_to_u256 note_commitment
  extCall (.insertNote n) (env.insertNoteFn n)
  emitEvent (.notePosted n)

/-- Source `DarkpoolCoreContract::new_wallet`: deserialize the statement; when
verifying, fetch the wallet-create vkey and verify the proof; insert the wallet
commitment (unsigned) and log the wallet update. -/
def new_wallet (env : DpEnv) (proof : List Nat)
    (valid_wallet_create_statement_bytes : Calldata ValidWalletCreateStatement) :
    EngineM Unit := do
  let stmt ← deserialize_from_calldata valid_wallet_create_statement_bytes
  if_verifying env (do
    let vkey ← fetch_vkeys env .validWalletCreateVkey
    let inputs ← serialize_statement_for_verification env (.walletCreate stmt)
    let ok ← verify env vkey proof inputs
    assertResult ok .verificationFailed)
  insert_wallet_commitment_to_merkle_tree env stmt.private_shares_commitment
    stmt.public_wallet_shares
  log_wallet_update stmt.public_wallet_shares

/-- Source `DarkpoolCoreContract::update_wallet`: deserialize the statement; when
verifying, fetch the wallet-update vkey and verify the proof; perform a signed rotation;
then execute the external transfer if the statement carries one. -/
def update_wallet (env : DpEnv) (proof : List Nat)
    (valid_wallet_update_statement_bytes : Calldata ValidWalletUpdateStatement)
    (wallet_commitment_signature : List Nat)
    (transfer_aux_data_bytes : List Nat) : EngineM Unit := do
  let stmt ← deserialize_from_calldata valid_wallet_update_statement_bytes
  if_verifying env (do
    let vkey ← fetch_vkeys env .validWalletUpdateVkey
    let inputs ← serialize_statement_for_verification env (.walletUpdate stmt)
    let ok ← verify env vkey proof inputs
    assertResult ok .verificationFailed)
  rotate_wallet_with_signature env stmt.old_shares_nullifier stmt.merkle_root
    stmt.new_private_shares_commitment stmt.new_public_shares
    wallet_commitment_signature stmt.old_pk_root
  match stmt.external_transfer with
  | some transfer =>
      execute_external_transfer env stmt.old_pk_root transfer transfer_aux_data_bytes
  | none => EngineM.pure ()

/-- Source `DarkpoolCoreContract::process_match_settle`: deserialize the two match
payloads and the settlement statement; when verifying, check the settlement indices,
check the protocol fee against storage, and batch-verify the proofs; then perform one
unsigned rotation per party. -/
def process_match_settle (env : DpEnv)
    (party_0_match_payload_bytes party_1_match_payload_bytes : Calldata MatchPayload)
    (valid_match_settle_statement_bytes : Calldata ValidMatchSettleStatement)
    (match_proofs match_linking_proofs : List Nat) : EngineM Unit := do
  let p0 ← deserialize_from_calldata party_0_match_payload_bytes
  let p1 ← deserialize_from_calldata party_1_match_payload_bytes
  let stmt ← deserialize_from_calldata valid_match_settle_statement_bytes
  if_verifying env (do
    let party0_same_indices :=
      p0.valid_commitments_statement.indices == stmt.party0_indices
    let party1_same_indices :=
      p1.valid_commitments_statement.indices == stmt.party1_indices
    assertResult (party0_same_indices && party1_same_indices)
      .invalidOrderSettlementIndices
    let feeWord ← getProtocolFee
    let protocol_fee ← liftResult (u256_to_scalar feeWord)
    assertResult (stmt.protocol_fee == protocol_fee) .invalidProtocolFee
    batch_verify_process_match_settle env p0 p1 stmt match_proofs
      match_linking_proofs)
  rotate_wallet env p0.valid_reblind_statement.original_shares_nullifier
    p0.valid_reblind_statement.merkle_root
    p0.valid_reblind_statement.reblinded_private_shares_commitment
    stmt.party0_modified_shares
  rotate_wallet env p1.valid_reblind_statement.original_shares_nullifier
    p1.valid_reblind_statement.merkle_root
    p1.valid_reblind_statement.reblinded_private_shares_commitment
    stmt.party1_modified_shares

/-- Source `DarkpoolCoreContract::settle_online_relayer_fee`: deserialize the statement;
when verifying, fetch the relayer-fee vkey and verify the proof; then an unsigned
rotation for the sender and a signed rotation for the recipient. -/
def settle_online_relayer_fee (env : DpEnv) (proof : List Nat)
    (statement_bytes : Calldata ValidRelayerFeeSettlementStatement)
    (relayer_wallet_commitment_signature : List Nat) : EngineM Unit := do
  let stmt ← deserialize_from_calldata statement_bytes
  if_verifying env (do
    let vkey ← fetch_vkeys env .validRelayerFeeSettlementVkey
    let inputs ← serialize_statement_for_verification env (.relayerFee stmt)
    let ok ← verify env vkey proof inputs
    assertResult ok .verificationFailed)
  rotate_wallet env stmt.sender_nullifier stmt.sender_root
    stmt.sender_wallet_commitment stmt.sender_updated_public_shares
  rotate_wallet_with_signature env stmt.recipient_nullifier stmt.recipient_root
    stmt.recipient_wallet_commitment stmt.recipient_updated_public_shares
    relayer_wallet_commitment_signature stmt.recipient_pk_root

/-- Source `DarkpoolCoreContract::settle_offline_fee`: deserialize the statement; when
verifying, check the statement's protocol key against storage, fetch the offline-fee
vkey and verify the proof; then an unsigned rotation and a note commitment. -/
def settle_offline_fee (env : DpEnv) (proof : List Nat)
    (statement_bytes : Calldata ValidOfflineFeeSettlementStatement) :
    EngineM Unit := do
  let stmt ← deserialize_from_calldata statement_bytes
  if_verifying env (do
    let pubkey ← get_protocol_public_encryption_key env
    assertResult (stmt.protocol_key == pubkey) .invalidProtocolPubkey
    let vkey ← fetch_vkeys env .validOfflineFeeSettlementVkey
    let inputs ← serialize_statement_for_verification env (.offlineFee stmt)
    let ok ← verify env vkey proof inputs
    assertResult ok .verificationFailed)
  rotate_wallet env stmt.nullifier stmt.merkle_root stmt.updated_wallet_commitment
    stmt.updated_wallet_public_shares
  commit_note env stmt.note_commitment

/-- Source `DarkpoolCoreContract::redeem_fee`: deserialize the statement; when
verifying, fetch the fee-redemption vkey and verify the proof; then a signed rotation of
the recipient wallet and a root-check-plus-nullification of the note nullifier. -/
def redeem_fee (env : DpEnv) (proof : List Nat)
    (statement_bytes : Calldata ValidFeeRedemptionStatement)
    (recipient_wallet_commitment_signature : List Nat) : EngineM Unit := do
  let stmt ← deserialize_from_calldata statement_bytes
  if_verifying env (do
    let vkey ← fetch_vkeys env .validFeeRedemptionVkey
    let inputs ← serialize_statement_for_verification env (.feeRedemption stmt)
    let ok ← verify env vkey proof inputs
    assertResult ok .verificationFailed)
  rotate_wallet_with_signature env stmt.nullifier stmt.wallet_root
    stmt.new_wallet_commitment stmt.new_wallet_public_shares
    recipient_wallet_commitment_signature stmt.old_pk_root
  check_root_and_nullify env stmt.note_nullifier stmt.note_root

/-- Both one-time-use sets of the first storage are contained in those of the second:
no nullifier is ever unmarked and no public blinder is ever released. -/
def SetsGrow (s t : DpStorage) : Prop :=
  (∀ x, x ∈ s.nullifier_set → x ∈ t.nullifier_set) ∧
  (∀ x, x ∈ s.public_blinder_set → x ∈ t.public_blinder_set)

/-- An engine computation only ever grows the nullifier and blinder sets, whatever its
outcome (ok, error return, or panic). -/
def Mono (m : EngineM α) : Prop := ∀ s, SetsGrow s.store ((m s).2.store)

/-- An engine computation that never writes any storage field, whatever its outcome. -/
def StoreConst (m : EngineM α) : Prop := ∀ s, (m s).2.store = s.store

/-- Empty storage with zeroed configuration. -/
def store0 : DpStorage := ⟨[], [], 0, 0, 0⟩

/-- Storage in which nullifier 5 is already spent. -/
def spentStore : DpStorage := ⟨[5], [], 0, 0, 0⟩

/-- Storage in which public blinder 9 is already used. -/
def usedBlinderStore : DpStorage := ⟨[], [9], 0, 0, 0⟩

/-- Storage whose stored protocol fee word is 5. -/
def feeStore : DpStorage := ⟨[], [], 5, 0, 0⟩

/-- A fully cooperative environment: verification enabled, and every external
collaborator answers successfully (roots are historical, proofs verify, inserts and
transfers succeed, serializers return empty blobs). -/
def okEnv : DpEnv where
  verifying := true
  chainid := 0
  rootInHistoryFn := fun _ => .ok true
  fetchVkeysFn := fun _ => .ok []
  callVerifierFn := fun _ _ => .ok true
  insertSharesFn := fun _ => .ok ()
  insertSignedSharesFn := fun _ _ _ => .ok ()
  insertNoteFn := fun _ => .ok ()
  executeTransferFn := fun _ _ _ => .ok ()
  pkToU256sFn := fun _ => some []
  serStatementFn := fun _ => .ok []
  serMatchStatementsFn := fun _ _ _ _ _ => .ok []
  postcardSerFn := fun _ => .ok []

/-- The cooperative environment in the `no-verify` build running on the devnet chain. -/
def noVerifyDevnetEnv : DpEnv :=
  { okEnv with verifying := false, chainid := DEVNET_CHAINID }

/-- The cooperative environment, except that the verifier rejects every proof. -/
def rejectingVerifierEnv : DpEnv :=
  { okEnv with callVerifierFn := fun _ _ => .ok false }

/-- The cooperative environment, except that the root-history query answers false for
every root. -/
def staleRootEnv : DpEnv :=
  { okEnv with rootInHistoryFn := fun _ => .ok false }

/-- The cooperative environment in the `no-verify` build running on a chain that is not
the devnet. -/
def noVerifyMainnetEnv : DpEnv :=
  { okEnv with verifying := false, chainid := 1 }

/-- Classifies an event as one of the two notification kinds named by the spec:
wallet-state-changed or note-committed. -/
def isSpecEventKind : DpEvent → Bool
  | .walletUpdated _ => true
  | .notePosted _ => true
  | .nullifierSpent _ => false

/-! Pointwise evaluation lemmas for the monad primitives. -/

@[simp]
theorem engine_pure_apply (a : α) (s : ExecState) :
    (EngineM.pure a : EngineM α) s = (.ok a, s) := rfl

@[simp]
theorem pure_apply (a : α) (s : ExecState) :
    (Pure.pure a : EngineM α) s = (.ok a, s) := rfl

@[simp]
theorem bind_apply (m : EngineM α) (f : α → EngineM β) (s : ExecState) :
    (m >>= f) s =
      match m s with
      | (.ok a, t) => f a t
      | (.err e, t) => (.err e, t)
      | (.panicked, t) => (.panicked, t) := rfl

@[simp]
theorem throwErr_apply (e : DarkpoolErr) (s : ExecState) :
    (throwErr e : EngineM α) s = (.err e, s) := rfl

@[simp]
theorem panicked_apply (s : ExecState) : (panicked : EngineM α) s = (.panicked, s) := rfl

@[simp]
theorem assertResult_true (e : DarkpoolErr) : assertResult true e = EngineM.pure () := rfl

@[simp]
theorem assertResult_false (e : DarkpoolErr) : assertResult false e = throwErr e := rfl

@[simp]
theorem liftResult_ok (a : α) (s : ExecState) :
    liftResult (.ok a) s = (.ok a, s) := rfl

@[simp]
theorem liftResult_error (e : DarkpoolErr) (s : ExecState) :
    (liftResult (.error e) : EngineM α) s = (.err e, s) := rfl

@[simp]
theorem extCall_ok (c : ExtCall) (a : α) (s : ExecState) :
    extCall c (.ok a) s = (.ok a, { s with calls := s.calls ++ [c] }) := rfl

@[simp]
theorem extCall_error (c : ExtCall) (e : DarkpoolErr) (s : ExecState) :
    (extCall c (.error e) : EngineM α) s =
      (.err e, { s with calls := s.calls ++ [c] }) := rfl

@[simp]
theorem emitEvent_apply (e : DpEvent) (s : ExecState) :
    emitEvent e s = (.ok (), { s with events := s.events ++ [e] }) := rfl

@[simp]
theorem getNullifierSpent_apply (n : Nat) (s : ExecState) :
    getNullifierSpent n s = (.ok (s.store.nullifier_set.contains n), s) := rfl

@[simp]
theorem insertNullifier_apply (n : Nat) (s : ExecState) :
    insertNullifier n s =
      (.ok (), { s with store :=
        { s.store with nullifier_set := n :: s.store.nullifier_set } }) := rfl

@[simp]
theorem getBlinderUsed_apply (b : Nat) (s : ExecState) :
    getBlinderUsed b s = (.ok (s.store.public_blinder_set.contains b), s) := rfl

@[simp]
theorem insertBlinder_apply (b : Nat) (s : ExecState) :
    insertBlinder b s =
      (.ok (), { s with store :=
        { s.store with public_blinder_set := b :: s.store.public_blinder_set } }) := rfl

@[simp]
theorem getProtocolFee_apply (s : ExecState) :
    getProtocolFee s = (.ok s.store.protocol_fee, s) := rfl

@[simp]
theorem getProtocolPubkeyWords_apply (s : ExecState) :
    getProtocolPubkeyWords s =
      (.ok (s.store.protocol_pubkey_x, s.store.protocol_pubkey_y), s) := rfl

@[simp]
theorem if_verifying_true (env : DpEnv) (m : EngineM Unit) (hv : env.verifying = true) :
    if_verifying env m = m := by
  simp [if_verifying, hv]

@[simp]
theorem scalar_to_u256_id (x : Nat) : scalar_to_u256 x = x := rfl

@[simp]
theorem deserialize_ok (a : α) : deserialize_from_calldata (.ok a) = EngineM.pure a := rfl

@[simp]
theorem deserialize_bad :
    (deserialize_from_calldata (.bad) : EngineM α) = throwErr .calldataDeser := rfl

/-! Monotonicity of the one-time-use sets: no engine computation ever removes a
nullifier from the nullifier set or a blinder from the public-blinder set. -/

theorem SetsGrow.rfl (s : DpStorage) : SetsGrow s s :=
  ⟨fun _ h => h, fun _ h => h⟩

theorem SetsGrow.trans {s t u : DpStorage} (h1 : SetsGrow s t) (h2 : SetsGrow t u) :
    SetsGrow s u :=
  ⟨fun x hx => h2.1 x (h1.1 x hx), fun x hx => h2.2 x (h1.2 x hx)⟩

theorem mono_enginePure (a : α) : Mono (EngineM.pure a) := fun _ => SetsGrow.rfl _

theorem mono_pure (a : α) : Mono (Pure.pure a : EngineM α) := fun _ => SetsGrow.rfl _

theorem mono_throwErr (e : DarkpoolErr) : Mono (throwErr e : EngineM α) :=
  fun _ => SetsGrow.rfl _

theorem mono_panicked : Mono (panicked : EngineM α) := fun _ => SetsGrow.rfl _

theorem mono_bind {m : EngineM α} {f : α → EngineM β} (hm : Mono m)
    (hf : ∀ a, Mono (f a)) : Mono (m >>= f) := by
  intro s
  have h1 := hm s
  rcases h : m s with ⟨o, t⟩
  rw [h] at h1
  cases o with
  | ok a =>
      have h2 := hf a t
      simp only [bind_apply, h]
      exact h1.trans h2
  | err e => simpa only [bind_apply, h] using h1
  | panicked => simpa only [bind_apply, h] using h1

theorem mono_assertResult (b : Bool) (e : DarkpoolErr) : Mono (assertResult b e) := by
  cases b
  · exact mono_throwErr e
  · exact mono_enginePure ()

theorem mono_liftResult (r : Except DarkpoolErr α) : Mono (liftResult r) := by
  cases r <;> exact fun s => SetsGrow.rfl _

theorem mono_extCall (c : ExtCall) (r : Except DarkpoolErr α) : Mono (extCall c r) := by
  cases r <;> exact fun s => SetsGrow.rfl _

theorem mono_emitEvent (e : DpEvent) : Mono (emitEvent e) := fun _ => SetsGrow.rfl _

theorem mono_getNullifierSpent (n : Nat) : Mono (getNullifierSpent n) :=
  fun _ => SetsGrow.rfl _

theorem mono_insertNullifier (n : Nat) : Mono (insertNullifier n) :=
  fun _ => ⟨fun _ hx => List.mem_cons_of_mem n hx, fun _ hx => hx⟩

theorem mono_getBlinderUsed (b : Nat) : Mono (getBlinderUsed b) :=
  fun _ => SetsGrow.rfl _

theorem mono_insertBlinder (b : Nat) : Mono (insertBlinder b) :=
  fun _ => ⟨fun _ hx => hx, fun _ hx => List.mem_cons_of_mem b hx⟩

theorem mono_getProtocolFee : Mono getProtocolFee := fun _ => SetsGrow.rfl _

theorem mono_getProtocolPubkeyWords : Mono getProtocolPubkeyWords :=
  fun _ => SetsGrow.rfl _

theorem mono_if_verifying (env : DpEnv) {m : EngineM Unit} (hm : Mono m) :
    Mono (if_verifying env m) := by
  unfold if_verifying
  split
  · exact hm
  · exact mono_assertResult _ _

theorem mono_deserialize (c : Calldata α) : Mono (deserialize_from_calldata c) := by
  cases c
  · exact mono_enginePure _
  · exact mono_throwErr _

theorem mono_get_public_blinder (sh : List Nat) :
    Mono (get_public_blinder_from_shares sh) := by
  unfold get_public_blinder_from_shares
  cases sh.getLast? <;> exact fun s => SetsGrow.rfl _

theorem mono_serialize_statement (env : DpEnv) (st : StatementData) :
    Mono (serialize_statement_for_verification env st) :=
  mono_liftResult _

theorem mono_serialize_match (env : DpEnv) (a b : ValidCommitmentsStatement)
    (c d : ValidReblindStatement) (e : ValidMatchSettleStatement) :
    Mono (serialize_match_statements_for_verification env a b c d e) :=
  mono_liftResult _

theorem mono_get_protocol_pubkey (env : DpEnv) :
    Mono (get_protocol_public_encryption_key env) := by
  unfold get_protocol_public_encryption_key
  exact mono_bind mono_getProtocolPubkeyWords (fun w =>
    mono_bind (mono_liftResult _) (fun x =>
      mono_bind (mono_liftResult _) (fun y => mono_enginePure _)))

theorem mono_check_root_in_history (env : DpEnv) (root : Nat) :
    Mono (check_root_in_history env root) := by
  unfold check_root_in_history
  exact mono_bind (mono_extCall _ _) (fun b => mono_assertResult _ _)

theorem mono_fetch_vkeys (env : DpEnv) (sel : Selector) :
    Mono (fetch_vkeys env sel) :=
  mono_extCall _ _

theorem mono_call_verifier (env : DpEnv) (sel : VerifySelector) (args : List Nat) :
    Mono (call_verifier env sel args) :=
  mono_extCall _ _

theorem mono_verify (env : DpEnv) (vk pf pi : List Nat) :
    Mono (verify env vk pf pi) :=
  mono_call_verifier _ _ _

theorem mono_mark_nullifier_spent (env : DpEnv) (n : Nat) :
    Mono (mark_nullifier_spent env n) := by
  unfold mark_nullifier_spent
  exact mono_bind
    (mono_if_verifying env
      (mono_bind (mono_getNullifierSpent _) (fun sp => mono_assertResult _ _)))
    (fun _ => mono_bind (mono_insertNullifier _) (fun _ => mono_emitEvent _))

theorem mono_mark_public_blinder_used (b : Nat) :
    Mono (mark_public_blinder_used b) := by
  unfold mark_public_blinder_used
  exact mono_bind (mono_getBlinderUsed _) (fun u =>
    mono_bind (mono_assertResult _ _) (fun _ => mono_insertBlinder _))

theorem mono_insert_wallet_commitment (env : DpEnv) (c : Nat) (sh : List Nat) :
    Mono (insert_wallet_commitment_to_merkle_tree env c sh) := by
  unfold insert_wallet_commitment_to_merkle_tree
  exact mono_extCall _ _

theorem mono_insert_signed_wallet_commitment (env : DpEnv) (c : Nat) (sh : List Nat)
    (sig : List Nat) (pk : Nat) :
    Mono (insert_signed_wallet_commitment_to_merkle_tree env c sh sig pk) := by
  unfold insert_signed_wallet_commitment_to_merkle_tree
  cases env.pkToU256sFn pk
  · exact mono_throwErr _
  · exact mono_extCall _ _

theorem mono_execute_external_transfer (env : DpEnv) (pk t : Nat) (aux : List Nat) :
    Mono (execute_external_transfer env pk t aux) := by
  unfold execute_external_transfer
  exact mono_bind (mono_liftResult _) (fun a =>
    mono_bind (mono_liftResult _) (fun b => mono_extCall _ _))

theorem mono_batch_verify (env : DpEnv) (p0 p1 : MatchPayload)
    (stmt : ValidMatchSettleStatement) (pf lk : List Nat) :
    Mono (batch_verify_process_match_settle env p0 p1 stmt pf lk) := by
  unfold batch_verify_process_match_settle
  exact mono_bind (mono_fetch_vkeys _ _) (fun vk =>
    mono_bind (mono_serialize_match _ _ _ _ _ _) (fun pi =>
      mono_bind (mono_call_verifier _ _ _) (fun r => mono_assertResult _ _)))

theorem mono_log_wallet_update (sh : List Nat) : Mono (log_wallet_update sh) := by
  unfold log_wallet_update
  exact mono_bind (mono_get_public_blinder _) (fun b => mono_emitEvent _)

theorem mono_check_root_and_nullify (env : DpEnv) (n root : Nat) :
    Mono (check_root_and_nullify env n root) := by
  unfold check_root_and_nullify
  exact mono_bind (mono_if_verifying env (mono_check_root_in_history _ _))
    (fun _ => mono_mark_nullifier_spent _ _)

theorem mono_check_wallet_rotation (env : DpEnv) (n root : Nat) (sh : List Nat) :
    Mono (check_wallet_rotation env n root sh) := by
  unfold check_wallet_rotation
  exact mono_bind (mono_get_public_blinder _) (fun b =>
    mono_bind (mono_mark_public_blinder_used _) (fun _ =>
      mono_bind (mono_check_root_and_nullify _ _ _) (fun _ =>
        mono_log_wallet_update _)))

theorem mono_rotate_wallet (env : DpEnv) (n root c : Nat) (sh : List Nat) :
    Mono (rotate_wallet env n root c sh) := by
  unfold rotate_wallet
  exact mono_bind (mono_check_wallet_rotation _ _ _ _)
    (fun _ => mono_insert_wallet_commitment _ _ _)

theorem mono_rotate_wallet_with_signature (env : DpEnv) (n root c : Nat)
    (sh sig : List Nat) (pk : Nat) :
    Mono (rotate_wallet_with_signature env n root c sh sig pk) := by
  unfold rotate_wallet_with_signature
  exact mono_bind (mono_check_wallet_rotation _ _ _ _)
    (fun _ => mono_insert_signed_wallet_commitment _ _ _ _ _)

theorem mono_commit_note (env : DpEnv) (note : Nat) : Mono (commit_note env note) := by
  unfold commit_note
  exact mono_bind (mono_extCall _ _) (fun _ => mono_emitEvent _)

theorem mono_new_wallet (env : DpEnv) (proof : List Nat)
    (cb : Calldata ValidWalletCreateStatement) : Mono (new_wallet env proof cb) := by
  unfold new_wallet
  exact mono_bind (mono_deserialize _) (fun stmt =>
    mono_bind (mono_if_verifying env
      (mono_bind (mono_fetch_vkeys _ _) (fun vk =>
        mono_bind (mono_serialize_statement _ _) (fun pi =>
          mono_bind (mono_verify _ _ _ _) (fun ok => mono_assertResult _ _)))))
      (fun _ => mono_bind (mono_insert_wallet_commitment _ _ _)
        (fun _ => mono_log_wallet_update _)))

theorem mono_update_wallet (env : DpEnv) (proof : List Nat)
    (cb : Calldata ValidWalletUpdateStatement) (sig aux : List Nat) :
    Mono (update_wallet env proof cb sig aux) := by
  unfold update_wallet
  refine mono_bind (mono_deserialize _) (fun stmt => ?_)
  refine mono_bind (mono_if_verifying env
    (mono_bind (mono_fetch_vkeys _ _) (fun vk =>
      mono_bind (mono_serialize_statement _ _) (fun pi =>
        mono_bind (mono_verify _ _ _ _) (fun ok => mono_assertResult _ _)))))
    (fun _ => ?_)
  refine mono_bind (mono_rotate_wallet_with_signature _ _ _ _ _ _ _) (fun _ => ?_)
  cases stmt.external_transfer
  · exact mono_enginePure _
  · exact mono_execute_external_transfer _ _ _ _

theorem mono_process_match_settle (env : DpEnv) (c0 c1 : Calldata MatchPayload)
    (cs : Calldata ValidMatchSettleStatement) (pf lk : List Nat) :
    Mono (process_match_settle env c0 c1 cs pf lk) := by
  unfold process_match_settle
  refine mono_bind (mono_deserialize _) (fun p0 => ?_)
  refine mono_bind (mono_deserialize _) (fun p1 => ?_)
  refine mono_bind (mono_deserialize _) (fun stmt => ?_)
  refine mono_bind (mono_if_verifying env ?_) (fun _ =>
    mono_bind (mono_rotate_wallet _ _ _ _ _) (fun _ => mono_rotate_wallet _ _ _ _ _))
  exact mono_bind (mono_assertResult _ _) (fun _ =>
    mono_bind mono_getProtocolFee (fun fw =>
      mono_bind (mono_liftResult _) (fun f =>
        mono_bind (mono_assertResult _ _) (fun _ => mono_batch_verify _ _ _ _ _ _))))

theorem mono_settle_online_relayer_fee (env : DpEnv) (proof : List Nat)
    (cb : Calldata ValidRelayerFeeSettlementStatement) (sig : List Nat) :
    Mono (settle_online_relayer_fee env proof cb sig) := by
  unfold settle_online_relayer_fee
  exact mono_bind (mono_deserialize _) (fun stmt =>
    mono_bind (mono_if_verifying env
      (mono_bind (mono_fetch_vkeys _ _) (fun vk =>
        mono_bind (mono_serialize_statement _ _) (fun pi =>
          mono_bind (mono_verify _ _ _ _) (fun ok => mono_assertResult _ _)))))
      (fun _ => mono_bind (mono_rotate_wallet _ _ _ _ _)
        (fun _ => mono_rotate_wallet_with_signature _ _ _ _ _ _ _)))

theorem mono_settle_offline_fee (env : DpEnv) (proof : List Nat)
    (cb : Calldata ValidOfflineFeeSettlementStatement) :
    Mono (settle_offline_fee env proof cb) := by
  unfold settle_offline_fee
  exact mono_bind (mono_deserialize _) (fun stmt =>
    mono_bind (mono_if_verifying env
      (mono_bind (mono_get_protocol_pubkey _) (fun pk =>
        mono_bind (mono_assertResult _ _) (fun _ =>
          mono_bind (mono_fetch_vkeys _ _) (fun vk =>
            mono_bind (mono_serialize_statement _ _) (fun pi =>
              mono_bind (mono_verify _ _ _ _) (fun ok => mono_assertResult _ _)))))))
      (fun _ => mono_bind (mono_rotate_wallet _ _ _ _ _)
        (fun _ => mono_commit_note _ _)))

theorem mono_redeem_fee (env : DpEnv) (proof : List Nat)
    (cb : Calldata ValidFeeRedemptionStatement) (sig : List Nat) :
    Mono (redeem_fee env proof cb sig) := by
  unfold redeem_fee
  exact mono_bind (mono_deserialize _) (fun stmt =>
    mono_bind (mono_if_verifying env
      (mono_bind (mono_fetch_vkeys _ _) (fun vk =>
        mono_bind (mono_serialize_statement _ _) (fun pi =>
          mono_bind (mono_verify _ _ _ _) (fun ok => mono_assertResult _ _)))))
      (fun _ => mono_bind (mono_rotate_wallet_with_signature _ _ _ _ _ _ _)
        (fun _ => mono_check_root_and_nullify _ _ _)))

/-! Sequencing lemmas and behavior lemmas for the engine helpers. -/

theorem bind_of_ok {m : EngineM α} {f : α → EngineM β} {s t : ExecState} {a : α}
    (h : m s = (.ok a, t)) : (m >>= f) s = f a t := by
  simp only [bind_apply, h]

theorem bind_of_err {m : EngineM α} {f : α → EngineM β} {s t : ExecState}
    {e : DarkpoolErr} (h : m s = (.err e, t)) : (m >>= f) s = (.err e, t) := by
  simp only [bind_apply, h]

theorem bind_of_panic {m : EngineM α} {f : α → EngineM β} {s t : ExecState}
    (h : m s = (.panicked, t)) : (m >>= f) s = (.panicked, t) := by
  simp only [bind_apply, h]

theorem mark_public_blinder_used_fresh {s : ExecState} {b : Nat}
    (h : s.store.public_blinder_set.contains b = false) :
    mark_public_blinder_used b s =
      (.ok (), { s with store :=
        { s.store with public_blinder_set := b :: s.store.public_blinder_set } }) := by
  have h2 : ¬ b ∈ s.store.public_blinder_set := by simpa using h
  simp [mark_public_blinder_used, h2]

theorem mark_public_blinder_used_used {s : ExecState} {b : Nat}
    (h : s.store.public_blinder_set.contains b = true) :
    mark_public_blinder_used b s = (.err .publicBlinderUsed, s) := by
  have h2 : b ∈ s.store.public_blinder_set := by simpa using h
  simp [mark_public_blinder_used, h2]

theorem check_root_and_nullify_spent {env : DpEnv} {s : ExecState} {N root : Nat}
    (hv : env.verifying = true)
    (hspent : s.store.nullifier_set.contains N = true) :
    (check_root_and_nullify env N root s).1 ≠ .ok () ∧
    (check_root_and_nullify env N root s).2.store = s.store ∧
    (env.rootInHistoryFn root = .ok true →
      (check_root_and_nullify env N root s).1 = .err .nullifierSpentErr) := by
  have h2 : N ∈ s.store.nullifier_set := by simpa using hspent
  unfold check_root_and_nullify check_root_in_history mark_nullifier_spent
  rcases hR : env.rootInHistoryFn root with e | b
  · simp [if_verifying, hv, hR]
  · cases b
    · simp [if_verifying, hv, hR]
    · simp [if_verifying, hv, hR, h2]

theorem gpb_none {shares : List Nat} (h : shares.getLast? = none) :
    get_public_blinder_from_shares shares = panicked := by
  simp [get_public_blinder_from_shares, h]

theorem gpb_some {shares : List Nat} {b : Nat} (h : shares.getLast? = some b) :
    get_public_blinder_from_shares shares = EngineM.pure b := by
  simp [get_public_blinder_from_shares, h]

theorem prepare_shares_eq (c : Nat) (sh : List Nat) :
    prepare_wallet_shares_for_insertion c sh = c :: sh := by
  have h : ∀ l : List Nat, l.map scalar_to_u256 = l := by
    intro l
    induction l with
    | nil => rfl
    | cons a t ih => simp [scalar_to_u256, ih]
  unfold prepare_wallet_shares_for_insertion
  rw [h, scalar_to_u256_id]

theorem bind_ok_inv {m : EngineM α} {f : α → EngineM β} {s t : ExecState} {b : β}
    (h : (m >>= f) s = (.ok b, t)) :
    ∃ a u, m s = (.ok a, u) ∧ f a u = (.ok b, t) := by
  rcases hm : m s with ⟨o, u⟩
  cases o with
  | ok a => exact ⟨a, u, rfl, by rwa [bind_of_ok hm] at h⟩
  | err e => rw [bind_of_err hm] at h; cases h
  | panicked => rw [bind_of_panic hm] at h; cases h

/-! Store-constancy: computations built only from reads, external calls and events
never change any storage field. -/

theorem storeConst_enginePure (a : α) : StoreConst (EngineM.pure a) := fun _ => rfl

theorem storeConst_pure (a : α) : StoreConst (Pure.pure a : EngineM α) := fun _ => rfl

theorem storeConst_throwErr (e : DarkpoolErr) : StoreConst (throwErr e : EngineM α) :=
  fun _ => rfl

theorem storeConst_panicked : StoreConst (panicked : EngineM α) := fun _ => rfl

theorem storeConst_bind {m : EngineM α} {f : α → EngineM β} (hm : StoreConst m)
    (hf : ∀ a, StoreConst (f a)) : StoreConst (m >>= f) := by
  intro s
  have h1 := hm s
  rcases h : m s with ⟨o, t⟩
  rw [h] at h1
  cases o with
  | ok a =>
      have h2 := hf a t
      simp only [bind_apply, h]
      exact h2.trans h1
  | err e => simpa only [bind_apply, h] using h1
  | panicked => simpa only [bind_apply, h] using h1

theorem storeConst_assertResult (b : Bool) (e : DarkpoolErr) :
    StoreConst (assertResult b e) := by
  cases b
  · exact storeConst_throwErr e
  · exact storeConst_enginePure ()

theorem storeConst_liftResult (r : Except DarkpoolErr α) : StoreConst (liftResult r) := by
  cases r <;> exact fun _ => rfl

theorem storeConst_extCall (c : ExtCall) (r : Except DarkpoolErr α) :
    StoreConst (extCall c r) := by
  cases r <;> exact fun _ => rfl

theorem storeConst_emitEvent (e : DpEvent) : StoreConst (emitEvent e) := fun _ => rfl

theorem storeConst_deserialize (c : Calldata α) :
    StoreConst (deserialize_from_calldata c) := by
  cases c
  · exact storeConst_enginePure _
  · exact storeConst_throwErr _

theorem storeConst_gpb (sh : List Nat) :
    StoreConst (get_public_blinder_from_shares sh) := by
  unfold get_public_blinder_from_shares
  cases sh.getLast? <;> exact fun _ => rfl

theorem storeConst_if_verifying (env : DpEnv) {m : EngineM Unit} (hm : StoreConst m) :
    StoreConst (if_verifying env m) := by
  unfold if_verifying
  split
  · exact hm
  · exact storeConst_assertResult _ _

theorem storeConst_fetch_vkeys (env : DpEnv) (sel : Selector) :
    StoreConst (fetch_vkeys env sel) :=
  storeConst_extCall _ _

theorem storeConst_verify (env : DpEnv) (vk pf pi : List Nat) :
    StoreConst (verify env vk pf pi) :=
  storeConst_extCall _ _

theorem storeConst_serialize_statement (env : DpEnv) (st : StatementData) :
    StoreConst (serialize_statement_for_verification env st) :=
  storeConst_liftResult _

theorem storeConst_insert_wallet_commitment (env : DpEnv) (c : Nat) (sh : List Nat) :
    StoreConst (insert_wallet_commitment_to_merkle_tree env c sh) := by
  unfold insert_wallet_commitment_to_merkle_tree
  exact storeConst_extCall _ _

theorem storeConst_log_wallet_update (sh : List Nat) :
    StoreConst (log_wallet_update sh) := by
  unfold log_wallet_update
  exact storeConst_bind (storeConst_gpb _) (fun _ => storeConst_emitEvent _)

theorem storeConst_new_wallet (env : DpEnv) (proof : List Nat)
    (cb : Calldata ValidWalletCreateStatement) : StoreConst (new_wallet env proof cb) := by
  unfold new_wallet
  exact storeConst_bind (storeConst_deserialize _) (fun stmt =>
    storeConst_bind (storeConst_if_verifying env
      (storeConst_bind (storeConst_fetch_vkeys _ _) (fun vk =>
        storeConst_bind (storeConst_serialize_statement _ _) (fun pi =>
          storeConst_bind (storeConst_verify _ _ _ _) (fun ok =>
            storeConst_assertResult _ _)))))
      (fun _ => storeConst_bind (storeConst_insert_wallet_commitment _ _ _)
        (fun _ => storeConst_log_wallet_update _)))

/-! Behavior of a rotation whose cited nullifier is already spent (verification on). -/

theorem check_wallet_rotation_spent {env : DpEnv} {s : ExecState} {N root : Nat}
    {shares : List Nat} (hv : env.verifying = true)
    (hspent : s.store.nullifier_set.contains N = true) :
    (check_wallet_rotation env N root shares s).1 ≠ .ok () ∧
    (check_wallet_rotation env N root shares s).2.store.nullifier_set =
      s.store.nullifier_set ∧
    (∀ b, shares.getLast? = some b →
      s.store.public_blinder_set.contains b = false →
      env.rootInHistoryFn root = .ok true →
      (check_wallet_rotation env N root shares s).1 = .err .nullifierSpentErr) := by
  unfold check_wallet_rotation
  rcases hL : shares.getLast? with _ | b
  · rw [gpb_none hL, bind_of_panic (panicked_apply s)]
    refine ⟨by simp, rfl, ?_⟩
    intro b hb
    cases hb
  · rw [gpb_some hL, bind_of_ok (engine_pure_apply b s)]
    rcases hB : s.store.public_blinder_set.contains b with _ | _
    · rw [bind_of_ok (mark_public_blinder_used_fresh hB)]
      have hspent2 : ({ s with store := { s.store with
          public_blinder_set := b :: s.store.public_blinder_set } } :
          ExecState).store.nullifier_set.contains N = true := hspent
      obtain ⟨h1, h2, h3⟩ := check_root_and_nullify_spent hv hspent2
      rcases hC : check_root_and_nullify env N root { s with store := { s.store with
          public_blinder_set := b :: s.store.public_blinder_set } } with ⟨o, t⟩
      rw [hC] at h1 h2 h3
      cases o with
      | ok a =>
          cases a
          exact absurd rfl h1
      | err e =>
          rw [bind_of_err hC]
          refine ⟨by simp, by rw [h2], ?_⟩
          intro b2 hb2 hfresh hroot
          exact h3 hroot
      | panicked =>
          rw [bind_of_panic hC]
          refine ⟨by simp, by rw [h2], ?_⟩
          intro b2 hb2 hfresh hroot
          cases h3 hroot
    · rw [bind_of_err (mark_public_blinder_used_used hB)]
      refine ⟨by simp, rfl, ?_⟩
      intro b2 hb2 hfresh
      injection hb2 with hbe
      subst hbe
      rw [hB] at hfresh
      cases hfresh

theorem cwr_tail_spent {env : DpEnv} {s : ExecState} {N root : Nat}
    {shares : List Nat} (tail : Unit → EngineM Unit)
    (hv : env.verifying = true)
    (hspent : s.store.nullifier_set.contains N = true) :
    ((check_wallet_rotation env N root shares >>= tail) s).1 ≠ .ok () ∧
    ((check_wallet_rotation env N root shares >>= tail) s).2.store.nullifier_set =
      s.store.nullifier_set ∧
    (∀ b, shares.getLast? = some b →
      s.store.public_blinder_set.contains b = false →
      env.rootInHistoryFn root = .ok true →
      ((check_wallet_rotation env N root shares >>= tail) s).1 =
        .err .nullifierSpentErr) := by
  obtain ⟨h1, h2, h3⟩ := @check_wallet_rotation_spent env s N root shares hv hspent
  rcases hC : check_wallet_rotation env N root shares s with ⟨o, t⟩
  rw [hC] at h1 h2 h3
  cases o with
  | ok a =>
      cases a
      exact absurd rfl h1
  | err e =>
      rw [bind_of_err hC]
      exact ⟨by simp, h2, h3⟩
  | panicked =>
      rw [bind_of_panic hC]
      exact ⟨by simp, h2, h3⟩

/-! Behavior of a rotation whose public blinder is already used: the failure happens
before the root-history check and before any nullifier access, with no state change. -/

theorem check_wallet_rotation_used {env : DpEnv} {s : ExecState} {N root : Nat}
    {shares : List Nat} {b : Nat} (hL : shares.getLast? = some b)
    (hused : s.store.public_blinder_set.contains b = true) :
    check_wallet_rotation env N root shares s = (.err .publicBlinderUsed, s) := by
  unfold check_wallet_rotation
  rw [gpb_some hL, bind_of_ok (engine_pure_apply b s),
    bind_of_err (mark_public_blinder_used_used hused)]

theorem cwr_tail_used {env : DpEnv} {s : ExecState} {N root : Nat}
    {shares : List Nat} {b : Nat} (tail : Unit → EngineM Unit)
    (hL : shares.getLast? = some b)
    (hused : s.store.public_blinder_set.contains b = true) :
    (check_wallet_rotation env N root shares >>= tail) s =
      (.err .publicBlinderUsed, s) :=
  bind_of_err (check_wallet_rotation_used hL hused)

/-! Behavior of a rotation whose public blinder is fresh: the blinder is marked used
before the remaining checks, and stays marked whatever happens afterwards. -/

theorem cwr_fresh_marks {env : DpEnv} {s : ExecState} {N root : Nat}
    {shares : List Nat} {b : Nat} (hL : shares.getLast? = some b)
    (hfresh : s.store.public_blinder_set.contains b = false) :
    b ∈ (check_wallet_rotation env N root shares s).2.store.public_blinder_set := by
  unfold check_wallet_rotation
  rw [gpb_some hL, bind_of_ok (engine_pure_apply b s),
    bind_of_ok (mark_public_blinder_used_fresh hfresh)]
  have hm := mono_bind (mono_check_root_and_nullify env N root)
    (fun _ => mono_log_wallet_update shares)
    { s with store := { s.store with
        public_blinder_set := b :: s.store.public_blinder_set } }
  exact hm.2 b (List.mem_cons_self b _)

theorem cwr_tail_marks {env : DpEnv} {s : ExecState} {N root : Nat}
    {shares : List Nat} {b : Nat} (tail : Unit → EngineM Unit)
    (htail : ∀ a, Mono (tail a)) (hL : shares.getLast? = some b)
    (hfresh : s.store.public_blinder_set.contains b = false) :
    b ∈ ((check_wallet_rotation env N root shares >>= tail) s).2.store.public_blinder_set := by
  have hmem := @cwr_fresh_marks env s N root shares b hL hfresh
  rcases hC : check_wallet_rotation env N root shares s with ⟨o, t⟩
  rw [hC] at hmem
  cases o with
  | ok a =>
      rw [bind_of_ok hC]
      exact (htail a t).2 b hmem
  | err e =>
      rw [bind_of_err hC]
      exact hmem
  | panicked =>
      rw [bind_of_panic hC]
      exact hmem

/-! Behavior of a rotation citing a stale root (verification on, fresh blinder). -/

theorem crn_stale {env : DpEnv} {s : ExecState} {N root : Nat}
    (hv : env.verifying = true)
    (hroot : env.rootInHistoryFn root = .ok false) :
    check_root_and_nullify env N root s =
      (.err .rootNotInHistory,
        { s with calls := s.calls ++ [.rootInHistory root] }) := by
  unfold check_root_and_nullify check_root_in_history
  simp [if_verifying, hv, hroot]

theorem check_wallet_rotation_stale {env : DpEnv} {s : ExecState} {N root : Nat}
    {shares : List Nat} {b : Nat} (hv : env.verifying = true)
    (hL : shares.getLast? = some b)
    (hfresh : s.store.public_blinder_set.contains b = false)
    (hroot : env.rootInHistoryFn root = .ok false) :
    check_wallet_rotation env N root shares s =
      (.err .rootNotInHistory,
        { s with
            store := { s.store with
              public_blinder_set := b :: s.store.public_blinder_set },
            calls := s.calls ++ [.rootInHistory root] }) := by
  unfold check_wallet_rotation
  rw [gpb_some hL, bind_of_ok (engine_pure_apply b s),
    bind_of_ok (mark_public_blinder_used_fresh hfresh),
    bind_of_err (crn_stale hv hroot)]

theorem cwr_tail_stale {env : DpEnv} {s : ExecState} {N root : Nat}
    {shares : List Nat} {b : Nat} (tail : Unit → EngineM Unit)
    (hv : env.verifying = true) (hL : shares.getLast? = some b)
    (hfresh : s.store.public_blinder_set.contains b = false)
    (hroot : env.rootInHistoryFn root = .ok false) :
    (check_wallet_rotation env N root shares >>= tail) s =
      (.err .rootNotInHistory,
        { s with
            store := { s.store with
              public_blinder_set := b :: s.store.public_blinder_set },
            calls := s.calls ++ [.rootInHistory root] }) :=
  bind_of_err (check_wallet_rotation_stale hv hL hfresh hroot)

/-! The verification-disablement guard. -/

theorem if_verifying_guard {env : DpEnv} (m : EngineM Unit)
    (h1 : env.verifying = false) (h2 : env.chainid ≠ DEVNET_CHAINID) :
    if_verifying env m = throwErr .verificationDisabled := by
  have h3 : (env.chainid == DEVNET_CHAINID) = false := by simpa using h2
  simp [if_verifying, h1, h3]

theorem if_verifying_devnet {env : DpEnv} (m : EngineM Unit)
    (h1 : env.verifying = false) (h2 : env.chainid = DEVNET_CHAINID) :
    if_verifying env m = EngineM.pure () := by
  have h3 : (env.chainid == DEVNET_CHAINID) = true := by simpa using h2
  simp [if_verifying, h1, h3, assertResult]

theorem log_wallet_update_nil (u : ExecState) :
    log_wallet_update [] u = (.panicked, u) := by
  simp [log_wallet_update, get_public_blinder_from_shares]

/-! In the `no-verify` build on a chain other than the devnet, every entry point
returns an error. -/

theorem new_wallet_guard_fails {env : DpEnv} {proof : List Nat}
    {cb : Calldata ValidWalletCreateStatement} {s : ExecState}
    (h1 : env.verifying = false) (h2 : env.chainid ≠ DEVNET_CHAINID) :
    ∃ e, (new_wallet env proof cb s).1 = .err e := by
  have hg : ∀ m : EngineM Unit, if_verifying env m = throwErr .verificationDisabled :=
    fun m => if_verifying_guard m h1 h2
  cases cb with
  | bad => exact ⟨.calldataDeser, by simp [new_wallet]⟩
  | ok stmt => exact ⟨.verificationDisabled, by simp [new_wallet, hg]⟩

theorem update_wallet_guard_fails {env : DpEnv} {proof : List Nat}
    {cb : Calldata ValidWalletUpdateStatement} {sig aux : List Nat} {s : ExecState}
    (h1 : env.verifying = false) (h2 : env.chainid ≠ DEVNET_CHAINID) :
    ∃ e, (update_wallet env proof cb sig aux s).1 = .err e := by
  have hg : ∀ m : EngineM Unit, if_verifying env m = throwErr .verificationDisabled :=
    fun m => if_verifying_guard m h1 h2
  cases cb with
  | bad => exact ⟨.calldataDeser, by simp [update_wallet]⟩
  | ok stmt => exact ⟨.verificationDisabled, by simp [update_wallet, hg]⟩

theorem process_match_settle_guard_fails {env : DpEnv}
    {c0 c1 : Calldata MatchPayload} {cs : Calldata ValidMatchSettleStatement}
    {pf lk : List Nat} {s : ExecState}
    (h1 : env.verifying = false) (h2 : env.chainid ≠ DEVNET_CHAINID) :
    ∃ e, (process_match_settle env c0 c1 cs pf lk s).1 = .err e := by
  have hg : ∀ m : EngineM Unit, if_verifying env m = throwErr .verificationDisabled :=
    fun m => if_verifying_guard m h1 h2
  cases c0 with
  | bad => exact ⟨.calldataDeser, by simp [process_match_settle]⟩
  | ok p0 =>
      cases c1 with
      | bad => exact ⟨.calldataDeser, by simp [process_match_settle]⟩
      | ok p1 =>
          cases cs with
          | bad => exact ⟨.calldataDeser, by simp [process_match_settle]⟩
          | ok stmt => exact ⟨.verificationDisabled, by simp [process_match_settle, hg]⟩

theorem settle_online_relayer_fee_guard_fails {env : DpEnv} {proof : List Nat}
    {cb : Calldata ValidRelayerFeeSettlementStatement} {sig : List Nat} {s : ExecState}
    (h1 : env.verifying = false) (h2 : env.chainid ≠ DEVNET_CHAINID) :
    ∃ e, (settle_online_relayer_fee env proof cb sig s).1 = .err e := by
  have hg : ∀ m : EngineM Unit, if_verifying env m = throwErr .verificationDisabled :=
    fun m => if_verifying_guard m h1 h2
  cases cb with
  | bad => exact ⟨.calldataDeser, by simp [settle_online_relayer_fee]⟩
  | ok stmt => exact ⟨.verificationDisabled, by simp [settle_online_relayer_fee, hg]⟩

theorem settle_offline_fee_guard_fails {env : DpEnv} {proof : List Nat}
    {cb : Calldata ValidOfflineFeeSettlementStatement} {s : ExecState}
    (h1 : env.verifying = false) (h2 : env.chainid ≠ DEVNET_CHAINID) :
    ∃ e, (settle_offline_fee env proof cb s).1 = .err e := by
  have hg : ∀ m : EngineM Unit, if_verifying env m = throwErr .verificationDisabled :=
    fun m => if_verifying_guard m h1 h2
  cases cb with
  | bad => exact ⟨.calldataDeser, by simp [settle_offline_fee]⟩
  | ok stmt => exact ⟨.verificationDisabled, by simp [settle_offline_fee, hg]⟩

theorem redeem_fee_guard_fails {env : DpEnv} {proof : List Nat}
    {cb : Calldata ValidFeeRedemptionStatement} {sig : List Nat} {s : ExecState}
    (h1 : env.verifying = false) (h2 : env.chainid ≠ DEVNET_CHAINID) :
    ∃ e, (redeem_fee env proof cb sig s).1 = .err e := by
  have hg : ∀ m : EngineM Unit, if_verifying env m = throwErr .verificationDisabled :=
    fun m => if_verifying_guard m h1 h2
  cases cb with
  | bad => exact ⟨.calldataDeser, by simp [redeem_fee]⟩
  | ok stmt => exact ⟨.verificationDisabled, by simp [redeem_fee, hg]⟩

/-! In the `no-verify` build on the devnet, a rotation performs no root-history
query: the only external call it can issue is the tree insertion. -/

theorem rotate_wallet_noverify_devnet_calls {env : DpEnv} {s : ExecState}
    {N root c : Nat} {shares : List Nat}
    (h1 : env.verifying = false) (h2 : env.chainid = DEVNET_CHAINID) :
    (rotate_wallet env N root c shares s).2.calls = s.calls ∨
    (rotate_wallet env N root c shares s).2.calls =
      s.calls ++ [.insertShares (c :: shares)] := by
  have hg : ∀ m : EngineM Unit, if_verifying env m = EngineM.pure () :=
    fun m => if_verifying_devnet m h1 h2
  unfold rotate_wallet check_wallet_rotation check_root_and_nullify
    mark_nullifier_spent log_wallet_update insert_wallet_commitment_to_merkle_tree
    mark_public_blinder_used
  rcases hL : shares.getLast? with _ | b
  · left
    rw [gpb_none hL]
    simp
  · rw [gpb_some hL]
    rcases hB : s.store.public_blinder_set.contains b with _ | _
    · have hB2 : ¬ b ∈ s.store.public_blinder_set := by simpa using hB
      rcases hI : env.insertSharesFn (c :: shares) with e | u
      · right
        simp [hg, gpb_some hL, hB2, prepare_shares_eq, hI]
      · right
        cases u
        simp [hg, gpb_some hL, hB2, prepare_shares_eq, hI]
    · have hB2 : b ∈ s.store.public_blinder_set := by simpa using hB
      left
      simp [hB2]

theorem fst_ok_inv {m : EngineM α} {s : ExecState} {a : α} (h : (m s).1 = .ok a) :
    ∃ t, m s = (.ok a, t) := by
  rcases hx : m s with ⟨o, t⟩
  rw [hx] at h
  have h2 : o = .ok a := h
  exact ⟨t, by rw [h2]⟩

/-! Pre-check failures of process_match_settle (verification enabled). -/

theorem pms_index_mismatch {env : DpEnv} {s : ExecState} {p0 p1 : MatchPayload}
    {stmt : ValidMatchSettleStatement} {pf lk : List Nat}
    (hv : env.verifying = true)
    (hmis : p0.valid_commitments_statement.indices ≠ stmt.party0_indices ∨
            p1.valid_commitments_statement.indices ≠ stmt.party1_indices) :
    process_match_settle env (.ok p0) (.ok p1) (.ok stmt) pf lk s =
      (.err .invalidOrderSettlementIndices, s) := by
  have hb : (p0.valid_commitments_statement.indices == stmt.party0_indices &&
      p1.valid_commitments_statement.indices == stmt.party1_indices) = false := by
    rcases hmis with h | h <;> simp [h]
  unfold process_match_settle
  rw [deserialize_ok, bind_of_ok (engine_pure_apply p0 s), deserialize_ok,
    bind_of_ok (engine_pure_apply p1 s), deserialize_ok,
    bind_of_ok (engine_pure_apply stmt s), if_verifying_true env _ hv]
  simp only [hb, assertResult_false, bind_apply, throwErr_apply]

theorem pms_fee_mismatch {env : DpEnv} {s : ExecState} {p0 p1 : MatchPayload}
    {stmt : ValidMatchSettleStatement} {pf lk : List Nat} {f : Nat}
    (hv : env.verifying = true)
    (h0 : p0.valid_commitments_statement.indices = stmt.party0_indices)
    (h1 : p1.valid_commitments_statement.indices = stmt.party1_indices)
    (hfee : u256_to_scalar s.store.protocol_fee = .ok f)
    (hne : stmt.protocol_fee ≠ f) :
    process_match_settle env (.ok p0) (.ok p1) (.ok stmt) pf lk s =
      (.err .invalidProtocolFee, s) := by
  have hb : (stmt.protocol_fee == f) = false := by simp [hne]
  have hb0 : (p0.valid_commitments_statement.indices == stmt.party0_indices &&
      p1.valid_commitments_statement.indices == stmt.party1_indices) = true := by
    simp [h0, h1]
  unfold process_match_settle
  rw [deserialize_ok, bind_of_ok (engine_pure_apply p0 s), deserialize_ok,
    bind_of_ok (engine_pure_apply p1 s), deserialize_ok,
    bind_of_ok (engine_pure_apply stmt s), if_verifying_true env _ hv]
  simp only [hb0, hb, assertResult_true, assertResult_false, bind_apply,
    engine_pure_apply, getProtocolFee_apply, hfee, liftResult_ok, throwErr_apply]

/-- C8: for every integer that converts to a field element, serializing the element
back yields the identical integer; and every integer not below the field modulus fails
to convert, deterministically, with the scalar-conversion error. -/
theorem c8_codec_roundtrip :
    (∀ u s, u256_to_scalar u = .ok s → scalar_to_u256 s = u) ∧
    (∀ u, SCALAR_MOD ≤ u → u256_to_scalar u = .error .scalarConversion) := by
  constructor
  · intro u s h
    unfold u256_to_scalar at h
    split at h
    · cases h
      rfl
    · cases h
  · intro u h
    unfold u256_to_scalar
    rw [if_neg (by omega)]

/-- Witness for C8 at concrete inputs 5 and SCALAR_MOD + 3. -/
theorem c8_witness :
    scalar_to_u256 5 = 5 ∧
    u256_to_scalar (SCALAR_MOD + 3) = .error .scalarConversion :=
  ⟨c8_codec_roundtrip.1 5 5 rfl, c8_codec_roundtrip.2 (SCALAR_MOD + 3) (by omega)⟩

/-- C5: with verification enabled, a process_match_settle call in which either party's
commitment-statement indices differ from the settlement statement's recorded indices for
that party fails with the index-mismatch error and leaves the execution state exactly
unchanged — in particular the trace records zero verifier (and vkeys) invocations and
no rotation or insertion is performed — regardless of proof validity. -/
theorem c5_index_mismatch_gating {env : DpEnv} {s : ExecState} {p0 p1 : MatchPayload}
    {stmt : ValidMatchSettleStatement} {pf lk : List Nat}
    (hv : env.verifying = true)
    (hmis : p0.valid_commitments_statement.indices ≠ stmt.party0_indices ∨
            p1.valid_commitments_statement.indices ≠ stmt.party1_indices) :
    process_match_settle env (.ok p0) (.ok p1) (.ok stmt) pf lk s =
      (.err .invalidOrderSettlementIndices, s) :=
  pms_index_mismatch hv hmis

/-- Witness for C5: party 0 cites indices 1 while the settlement statement records 2. -/
theorem c5_witness :
    process_match_settle okEnv (.ok ⟨⟨1⟩, ⟨5, 2, 1⟩⟩) (.ok ⟨⟨3⟩, ⟨6, 4, 1⟩⟩)
      (.ok ⟨2, 3, [9], [10], 0⟩) [] [] (ExecState.init store0) =
      (.err .invalidOrderSettlementIndices, ExecState.init store0) :=
  c5_index_mismatch_gating rfl (Or.inl (by decide))

/-- C6: with verification enabled, a process_match_settle call whose statement protocol
fee differs from the stored protocol fee (converted from its fixed-point storage form to
a field element) fails with the execution state exactly unchanged — so before any proof
verification and with no rotation — and the error is the invalid-protocol-fee error
whenever the preceding index check passes (with mismatched indices the call fails even
earlier, with the index-mismatch error). -/
theorem c6_fee_mismatch_gating {env : DpEnv} {s : ExecState} {p0 p1 : MatchPayload}
    {stmt : ValidMatchSettleStatement} {pf lk : List Nat} {f : Nat}
    (hv : env.verifying = true)
    (hfee : u256_to_scalar s.store.protocol_fee = .ok f)
    (hne : stmt.protocol_fee ≠ f) :
    (∃ e, process_match_settle env (.ok p0) (.ok p1) (.ok stmt) pf lk s =
      (.err e, s)) ∧
    (p0.valid_commitments_statement.indices = stmt.party0_indices →
      p1.valid_commitments_statement.indices = stmt.party1_indices →
      process_match_settle env (.ok p0) (.ok p1) (.ok stmt) pf lk s =
        (.err .invalidProtocolFee, s)) := by
  constructor
  · by_cases h0 : p0.valid_commitments_statement.indices = stmt.party0_indices
    · by_cases h1 : p1.valid_commitments_statement.indices = stmt.party1_indices
      · exact ⟨.invalidProtocolFee, pms_fee_mismatch hv h0 h1 hfee hne⟩
      · exact ⟨.invalidOrderSettlementIndices, pms_index_mismatch hv (Or.inr h1)⟩
    · exact ⟨.invalidOrderSettlementIndices, pms_index_mismatch hv (Or.inl h0)⟩
  · intro h0 h1
    exact pms_fee_mismatch hv h0 h1 hfee hne

/-- Witness for C6: stored fee word 5 converts to field element 5, the statement
carries fee 7, the index check passes, and the call fails with the fee error. -/
theorem c6_witness :
    process_match_settle okEnv (.ok ⟨⟨1⟩, ⟨5, 2, 1⟩⟩) (.ok ⟨⟨3⟩, ⟨6, 4, 1⟩⟩)
      (.ok ⟨1, 3, [9], [10], 7⟩) [] [] (ExecState.init feeStore) =
      (.err .invalidProtocolFee, ExecState.init feeStore) :=
  (c6_fee_mismatch_gating rfl
    (show u256_to_scalar (ExecState.init feeStore).store.protocol_fee = Except.ok 5
      from rfl)
    (by decide)).2 rfl rfl

/-- Counterexample for C1 as stated: in the `no-verify` build on the devnet chain the
nullifier-spent check is skipped, so after a first rotation successfully marks
nullifier 5 spent, a second rotation citing 5 (with a fresh blinder) succeeds instead
of failing with the NullifierSpent error. -/
theorem c1_counterexample :
    (rotate_wallet noVerifyDevnetEnv 5 1 2 [9] (ExecState.init store0)).1 = .ok () ∧
    (rotate_wallet noVerifyDevnetEnv 5 1 2 [9]
      (ExecState.init store0)).2.store.nullifier_set.contains 5 = true ∧
    (rotate_wallet noVerifyDevnetEnv 5 1 3 [10]
      (ExecState.init (rotate_wallet noVerifyDevnetEnv 5 1 2 [9]
        (ExecState.init store0)).2.store)).1 = .ok () := by
  decide

/-- C1 (amended): when verification is enabled, a rotation (unsigned or signed) citing
an already-spent nullifier N never succeeds and leaves the nullifier set unchanged, and
it fails precisely with the NullifierSpent error when the earlier checks of the rotation
sequence pass (fresh blinder, historical root); the note-nullifier consumption used by
redeem_fee behaves the same way; and no operation of the engine — any of the six entry
points, in any mode — ever removes a nullifier from the nullifier set. -/
theorem c1_nullifier_one_time_use :
    (∀ env s N root c shares,
      env.verifying = true → s.store.nullifier_set.contains N = true →
      (rotate_wallet env N root c shares s).1 ≠ .ok () ∧
      (rotate_wallet env N root c shares s).2.store.nullifier_set =
        s.store.nullifier_set) ∧
    (∀ env s N root c shares sig pk,
      env.verifying = true → s.store.nullifier_set.contains N = true →
      (rotate_wallet_with_signature env N root c shares sig pk s).1 ≠ .ok () ∧
      (rotate_wallet_with_signature env N root c shares sig pk s).2.store.nullifier_set
        = s.store.nullifier_set) ∧
    (∀ env s N root c shares b,
      env.verifying = true → s.store.nullifier_set.contains N = true →
      shares.getLast? = some b → s.store.public_blinder_set.contains b = false →
      env.rootInHistoryFn root = .ok true →
      (rotate_wallet env N root c shares s).1 = .err .nullifierSpentErr) ∧
    (∀ env s N root,
      env.verifying = true → s.store.nullifier_set.contains N = true →
      (check_root_and_nullify env N root s).1 ≠ .ok () ∧
      (check_root_and_nullify env N root s).2.store.nullifier_set =
        s.store.nullifier_set) ∧
    (∀ env proof cb s x, x ∈ s.store.nullifier_set →
      x ∈ (new_wallet env proof cb s).2.store.nullifier_set) ∧
    (∀ env proof cb sig aux s x, x ∈ s.store.nullifier_set →
      x ∈ (update_wallet env proof cb sig aux s).2.store.nullifier_set) ∧
    (∀ env c0 c1 cs pf lk s x, x ∈ s.store.nullifier_set →
      x ∈ (process_match_settle env c0 c1 cs pf lk s).2.store.nullifier_set) ∧
    (∀ env proof cb sig s x, x ∈ s.store.nullifier_set →
      x ∈ (settle_online_relayer_fee env proof cb sig s).2.store.nullifier_set) ∧
    (∀ env proof cb s x, x ∈ s.store.nullifier_set →
      x ∈ (settle_offline_fee env proof cb s).2.store.nullifier_set) ∧
    (∀ env proof cb sig s x, x ∈ s.store.nullifier_set →
      x ∈ (redeem_fee env proof cb sig s).2.store.nullifier_set) := by
  refine ⟨?_, ?_, ?_, ?_, ?_, ?_, ?_, ?_, ?_, ?_⟩
  · intro env s N root c shares hv hsp
    have h := @cwr_tail_spent env s N root shares
      (fun _ => insert_wallet_commitment_to_merkle_tree env c shares) hv hsp
    exact ⟨by unfold rotate_wallet; exact h.1, by unfold rotate_wallet; exact h.2.1⟩
  · intro env s N root c shares sig pk hv hsp
    have h := @cwr_tail_spent env s N root shares
      (fun _ => insert_signed_wallet_commitment_to_merkle_tree env c shares sig pk)
      hv hsp
    exact ⟨by unfold rotate_wallet_with_signature; exact h.1,
      by unfold rotate_wallet_with_signature; exact h.2.1⟩
  · intro env s N root c shares b hv hsp hL hfresh hroot
    have h := @cwr_tail_spent env s N root shares
      (fun _ => insert_wallet_commitment_to_merkle_tree env c shares) hv hsp
    unfold rotate_wallet
    exact h.2.2 b hL hfresh hroot
  · intro env s N root hv hsp
    obtain ⟨h1, h2, _⟩ := @check_root_and_nullify_spent env s N root hv hsp
    exact ⟨h1, by rw [h2]⟩
  · intro env proof cb s x hx
    exact (mono_new_wallet env proof cb s).1 x hx
  · intro env proof cb sig aux s x hx
    exact (mono_update_wallet env proof cb sig aux s).1 x hx
  · intro env c0 c1 cs pf lk s x hx
    exact (mono_process_match_settle env c0 c1 cs pf lk s).1 x hx
  · intro env proof cb sig s x hx
    exact (mono_settle_online_relayer_fee env proof cb sig s).1 x hx
  · intro env proof cb s x hx
    exact (mono_settle_offline_fee env proof cb s).1 x hx
  · intro env proof cb sig s x hx
    exact (mono_redeem_fee env proof cb sig s).1 x hx

/-- Witness for C1 (amended): with verification enabled, a rotation citing the already
spent nullifier 5, with a fresh blinder and a historical root, fails with the
NullifierSpent error. -/
theorem c1_witness :
    (rotate_wallet okEnv 5 1 2 [9] (ExecState.init spentStore)).1 =
      .err .nullifierSpentErr :=
  c1_nullifier_one_time_use.2.2.1 okEnv (ExecState.init spentStore) 5 1 2 [9] 9 rfl
    (by decide) (by decide) (by decide) rfl

/-- Counterexample for C2 as stated: a new_wallet call (verification enabled, proof
accepted) commits a leaf whose shares end in blinder 7, yet does not mark 7 used, and a
later rotation whose new public shares end in 7 succeeds instead of failing with the
BlinderReused error. -/
theorem c2_counterexample :
    (new_wallet okEnv [] (.ok ⟨2, [7]⟩) (ExecState.init store0)).1 = .ok () ∧
    (new_wallet okEnv [] (.ok ⟨2, [7]⟩)
      (ExecState.init store0)).2.store.public_blinder_set.contains 7 = false ∧
    (rotate_wallet okEnv 5 1 3 [7]
      (ExecState.init (new_wallet okEnv [] (.ok ⟨2, [7]⟩)
        (ExecState.init store0)).2.store)).1 = .ok () := by
  decide

/-- C2 (amended): once a public blinder has been marked used by a rotation, any later
rotation (unsigned or signed) whose new public shares end in that blinder fails with the
BlinderReused error — in every mode, before any other check, with no state change — and
a used blinder is never released by any of the six entry points; however wallet creation
(new_wallet) writes no storage at all, in particular it does not mark the blinder of the
leaf it commits. -/
theorem c2_blinder_uniqueness :
    (∀ env s N root c shares b, shares.getLast? = some b →
      s.store.public_blinder_set.contains b = true →
      rotate_wallet env N root c shares s = (.err .publicBlinderUsed, s)) ∧
    (∀ env s N root c shares sig pk b, shares.getLast? = some b →
      s.store.public_blinder_set.contains b = true →
      rotate_wallet_with_signature env N root c shares sig pk s =
        (.err .publicBlinderUsed, s)) ∧
    (∀ env proof cb s, (new_wallet env proof cb s).2.store = s.store) ∧
    (∀ env proof cb s x, x ∈ s.store.public_blinder_set →
      x ∈ (new_wallet env proof cb s).2.store.public_blinder_set) ∧
    (∀ env proof cb sig aux s x, x ∈ s.store.public_blinder_set →
      x ∈ (update_wallet env proof cb sig aux s).2.store.public_blinder_set) ∧
    (∀ env c0 c1 cs pf lk s x, x ∈ s.store.public_blinder_set →
      x ∈ (process_match_settle env c0 c1 cs pf lk s).2.store.public_blinder_set) ∧
    (∀ env proof cb sig s x, x ∈ s.store.public_blinder_set →
      x ∈ (settle_online_relayer_fee env proof cb sig s).2.store.public_blinder_set) ∧
    (∀ env proof cb s x, x ∈ s.store.public_blinder_set →
      x ∈ (settle_offline_fee env proof cb s).2.store.public_blinder_set) ∧
    (∀ env proof cb sig s x, x ∈ s.store.public_blinder_set →
      x ∈ (redeem_fee env proof cb sig s).2.store.public_blinder_set) := by
  refine ⟨?_, ?_, ?_, ?_, ?_, ?_, ?_, ?_, ?_⟩
  · intro env s N root c shares b hL hused
    unfold rotate_wallet
    exact cwr_tail_used _ hL hused
  · intro env s N root c shares sig pk b hL hused
    unfold rotate_wallet_with_signature
    exact cwr_tail_used _ hL hused
  · intro env proof cb s
    exact storeConst_new_wallet env proof cb s
  · intro env proof cb s x hx
    exact (mono_new_wallet env proof cb s).2 x hx
  · intro env proof cb sig aux s x hx
    exact (mono_update_wallet env proof cb sig aux s).2 x hx
  · intro env c0 c1 cs pf lk s x hx
    exact (mono_process_match_settle env c0 c1 cs pf lk s).2 x hx
  · intro env proof cb sig s x hx
    exact (mono_settle_online_relayer_fee env proof cb sig s).2 x hx
  · intro env proof cb s x hx
    exact (mono_settle_offline_fee env proof cb s).2 x hx
  · intro env proof cb sig s x hx
    exact (mono_redeem_fee env proof cb sig s).2 x hx

/-- Witness for C2 (amended): a rotation whose shares end in the already-used blinder 9
fails with the BlinderReused error and changes nothing. -/
theorem c2_witness :
    rotate_wallet okEnv 5 1 2 [9] (ExecState.init usedBlinderStore) =
      (.err .publicBlinderUsed, ExecState.init usedBlinderStore) :=
  c2_blinder_uniqueness.1 okEnv (ExecState.init usedBlinderStore) 5 1 2 [9] 9
    (by decide) (by decide)

/-- C3: in every rotation the public blinder is checked and marked before the
root-history check and the nullifier check: a fresh blinder is still marked used in the
final state of a rotation that fails later (stale root, spent nullifier, failed
insertion — the conclusion holds whatever the outcome), and a reused blinder aborts the
rotation with the BlinderReused error with the state exactly unchanged, hence before any
root-history query and any nullifier access. -/
theorem c3_blinder_marked_first :
    (∀ env s N root c shares b, shares.getLast? = some b →
      s.store.public_blinder_set.contains b = false →
      b ∈ (rotate_wallet env N root c shares s).2.store.public_blinder_set) ∧
    (∀ env s N root c shares sig pk b, shares.getLast? = some b →
      s.store.public_blinder_set.contains b = false →
      b ∈ (rotate_wallet_with_signature env N root c
        shares sig pk s).2.store.public_blinder_set) ∧
    (∀ env s N root c shares b, shares.getLast? = some b →
      s.store.public_blinder_set.contains b = true →
      (rotate_wallet env N root c shares s).1 = .err .publicBlinderUsed ∧
      (rotate_wallet env N root c shares s).2 = s) := by
  refine ⟨?_, ?_, ?_⟩
  · intro env s N root c shares b hL hfresh
    unfold rotate_wallet
    exact cwr_tail_marks _ (fun a => mono_insert_wallet_commitment env c shares)
      hL hfresh
  · intro env s N root c shares sig pk b hL hfresh
    unfold rotate_wallet_with_signature
    exact cwr_tail_marks _
      (fun a => mono_insert_signed_wallet_commitment env c shares sig pk) hL hfresh
  · intro env s N root c shares b hL hused
    have h := @cwr_tail_used env s N root shares b
      (fun _ => insert_wallet_commitment_to_merkle_tree env c shares) hL hused
    unfold rotate_wallet
    rw [h]
    exact ⟨rfl, rfl⟩

/-- Witness for C3: with a stale root the rotation fails, yet blinder 9 is left marked
used in the final state. -/
theorem c3_witness :
    9 ∈ (rotate_wallet staleRootEnv 5 1 2 [9]
      (ExecState.init store0)).2.store.public_blinder_set :=
  c3_blinder_marked_first.1 staleRootEnv (ExecState.init store0) 5 1 2 [9] 9
    (by decide) (by decide)

/-- C4: with verification enabled, a rotation citing a root for which the root-history
query answers false fails with the StaleRoot error and the nullifier set is unchanged
(the earlier blinder check is assumed to pass, being sequenced first); in the
`no-verify` build every one of the six entry points fails on any chain other than the
devnet; and on the devnet the root check is skipped — a rotation issues no root-history
call at all. -/
theorem c4_root_gating :
    (∀ env s N root c shares b, env.verifying = true →
      shares.getLast? = some b → s.store.public_blinder_set.contains b = false →
      env.rootInHistoryFn root = .ok false →
      (rotate_wallet env N root c shares s).1 = .err .rootNotInHistory ∧
      (rotate_wallet env N root c shares s).2.store.nullifier_set =
        s.store.nullifier_set) ∧
    (∀ env s N root c shares sig pk b, env.verifying = true →
      shares.getLast? = some b → s.store.public_blinder_set.contains b = false →
      env.rootInHistoryFn root = .ok false →
      (rotate_wallet_with_signature env N root c shares sig pk s).1 =
        .err .rootNotInHistory ∧
      (rotate_wallet_with_signature env N root c shares sig pk s).2.store.nullifier_set
        = s.store.nullifier_set) ∧
    (∀ env, env.verifying = false → env.chainid ≠ DEVNET_CHAINID →
      (∀ proof cb s, ∃ e, (new_wallet env proof cb s).1 = .err e) ∧
      (∀ proof cb sig aux s, ∃ e, (update_wallet env proof cb sig aux s).1 = .err e) ∧
      (∀ c0 c1 cs pf lk s, ∃ e,
        (process_match_settle env c0 c1 cs pf lk s).1 = .err e) ∧
      (∀ proof cb sig s, ∃ e,
        (settle_online_relayer_fee env proof cb sig s).1 = .err e) ∧
      (∀ proof cb s, ∃ e, (settle_offline_fee env proof cb s).1 = .err e) ∧
      (∀ proof cb sig s, ∃ e, (redeem_fee env proof cb sig s).1 = .err e)) ∧
    (∀ env s N root c shares, env.verifying = false →
      env.chainid = DEVNET_CHAINID →
      ∀ r, ExtCall.rootInHistory r ∉ s.calls →
        ExtCall.rootInHistory r ∉ (rotate_wallet env N root c shares s).2.calls) := by
  refine ⟨?_, ?_, ?_, ?_⟩
  · intro env s N root c shares b hv hL hfresh hroot
    have h := @cwr_tail_stale env s N root shares b
      (fun _ => insert_wallet_commitment_to_merkle_tree env c shares) hv hL hfresh hroot
    unfold rotate_wallet
    rw [h]
    exact ⟨rfl, rfl⟩
  · intro env s N root c shares sig pk b hv hL hfresh hroot
    have h := @cwr_tail_stale env s N root shares b
      (fun _ => insert_signed_wallet_commitment_to_merkle_tree env c shares sig pk)
      hv hL hfresh hroot
    unfold rotate_wallet_with_signature
    rw [h]
    exact ⟨rfl, rfl⟩
  · intro env h1 h2
    exact ⟨fun proof cb s => new_wallet_guard_fails h1 h2,
      fun proof cb sig aux s => update_wallet_guard_fails h1 h2,
      fun c0 c1 cs pf lk s => process_match_settle_guard_fails h1 h2,
      fun proof cb sig s => settle_online_relayer_fee_guard_fails h1 h2,
      fun proof cb s => settle_offline_fee_guard_fails h1 h2,
      fun proof cb sig s => redeem_fee_guard_fails h1 h2⟩
  · intro env s N root c shares h1 h2 r hnotin
    rcases @rotate_wallet_noverify_devnet_calls env s N root c shares h1 h2 with h | h
    · rw [h]
      exact hnotin
    · rw [h]
      simp [hnotin]

/-- Witness for C4: with verification enabled and a root-history oracle answering
false, a rotation fails with the StaleRoot error. -/
theorem c4_witness :
    (rotate_wallet staleRootEnv 5 1 2 [9] (ExecState.init store0)).1 =
      .err .rootNotInHistory :=
  (c4_root_gating.1 staleRootEnv (ExecState.init store0) 5 1 2 [9] 9 rfl
    (by decide) (by decide) rfl).1

/-- C7: with verification enabled, a new_wallet call whose statement carries private
commitment C and non-empty public shares, whose vkey fetch, statement serialization and
proof check succeed, and whose insertion succeeds, issues exactly one unsigned tree
insertion of the leaf C followed by the shares in order, emits exactly one wallet-update
event carrying the last share (the blinder), and leaves the storage — in particular the
nullifier set — entirely untouched. -/
theorem c7_wallet_creation {env : DpEnv} {proof : List Nat}
    {stmt : ValidWalletCreateStatement} {st : DpStorage} {vk pi : List Nat} {b : Nat}
    (hv : env.verifying = true)
    (hL : stmt.public_wallet_shares.getLast? = some b)
    (hvk : env.fetchVkeysFn .validWalletCreateVkey = .ok vk)
    (hser : env.serStatementFn (.walletCreate stmt) = .ok pi)
    (hverif : env.callVerifierFn .verifySingle (vk ++ (proof ++ pi)) = .ok true)
    (hins : env.insertSharesFn (stmt.private_shares_commitment ::
      stmt.public_wallet_shares) = .ok ()) :
    new_wallet env proof (.ok stmt) (ExecState.init st) =
      (.ok (), ⟨st,
        [.fetchVkeys .validWalletCreateVkey,
         .callVerifier .verifySingle (vk ++ (proof ++ pi)),
         .insertShares (stmt.private_shares_commitment :: stmt.public_wallet_shares)],
        [.walletUpdated b]⟩) := by
  simp [new_wallet, fetch_vkeys, serialize_statement_for_verification, verify,
    call_verifier, insert_wallet_commitment_to_merkle_tree, log_wallet_update,
    ExecState.init, hv, hvk, hser, hverif, prepare_shares_eq, hins, gpb_some hL]

/-- Witness for C7 at a concrete statement with commitment 2 and shares [9]. -/
theorem c7_witness :
    new_wallet okEnv [] (.ok ⟨2, [9]⟩) (ExecState.init store0) =
      (.ok (), ⟨store0,
        [.fetchVkeys .validWalletCreateVkey, .callVerifier .verifySingle ([] ++ ([] ++ [])),
         .insertShares [2, 9]], [.walletUpdated 9]⟩) :=
  c7_wallet_creation rfl (by decide) rfl rfl rfl rfl

/-- Counterexample for C9 as stated: a successful wallet-update call emits a
NullifierSpent event (from mark_nullifier_spent), a third notification kind beyond the
two named by the spec — the emitted trace is [NullifierSpent 5, WalletUpdated 9] and its
first element is of neither spec-named kind. -/
theorem c9_counterexample :
    (update_wallet okEnv [] (.ok ⟨5, 2, [9], 1, none, 0⟩) [] []
      (ExecState.init store0)).2.events =
      [.nullifierSpent 5, .walletUpdated 9] ∧
    isSpecEventKind (.nullifierSpent 5) = false := by
  decide

/-- C9 (amended): the engine emits exactly three notification kinds — nullifier-spent
(carrying the spent nullifier), wallet-updated (carrying the new public blinder) and
note-posted (carrying the note leaf value) — and within one call the trace lists them
in emission order: a successful settle_offline_fee call emits precisely
[NullifierSpent N, WalletUpdated B, NotePosted V] in that order. -/
theorem c9_event_kinds {env : DpEnv} {proof : List Nat}
    {stmt : ValidOfflineFeeSettlementStatement} {st : DpStorage}
    {vk pi : List Nat} {b x y : Nat}
    (hv : env.verifying = true)
    (hx : u256_to_scalar st.protocol_pubkey_x = .ok x)
    (hy : u256_to_scalar st.protocol_pubkey_y = .ok y)
    (hkey : stmt.protocol_key = (x, y))
    (hvk : env.fetchVkeysFn .validOfflineFeeSettlementVkey = .ok vk)
    (hser : env.serStatementFn (.offlineFee stmt) = .ok pi)
    (hverif : env.callVerifierFn .verifySingle (vk ++ (proof ++ pi)) = .ok true)
    (hL : stmt.updated_wallet_public_shares.getLast? = some b)
    (hfresh : st.public_blinder_set.contains b = false)
    (hroot : env.rootInHistoryFn stmt.merkle_root = .ok true)
    (hnul : st.nullifier_set.contains stmt.nullifier = false)
    (hins : env.insertSharesFn (stmt.updated_wallet_commitment ::
      stmt.updated_wallet_public_shares) = .ok ())
    (hnote : env.insertNoteFn stmt.note_commitment = .ok ()) :
    (settle_offline_fee env proof (.ok stmt) (ExecState.init st)).1 = .ok () ∧
    (settle_offline_fee env proof (.ok stmt) (ExecState.init st)).2.events =
      [.nullifierSpent stmt.nullifier, .walletUpdated b,
       .notePosted stmt.note_commitment] := by
  have hfresh2 : ¬ b ∈ st.public_blinder_set := by simpa using hfresh
  have hnul2 : ¬ stmt.nullifier ∈ st.nullifier_set := by simpa using hnul
  constructor <;>
  simp [settle_offline_fee, get_protocol_public_encryption_key, fetch_vkeys,
    serialize_statement_for_verification, verify, call_verifier, rotate_wallet,
    check_wallet_rotation, mark_public_blinder_used, check_root_and_nullify,
    check_root_in_history, mark_nullifier_spent, log_wallet_update,
    insert_wallet_commitment_to_merkle_tree, commit_note, ExecState.init,
    if_verifying, hv, hx, hy, hkey, hvk, hser, hverif, gpb_some hL, hfresh2, hroot,
    hnul2, prepare_shares_eq, hins, hnote]

/-- Witness for C9 (amended) at a concrete offline-fee settlement. -/
theorem c9_witness :
    (settle_offline_fee okEnv [] (.ok ⟨1, 5, 2, [9], 7, (0, 0)⟩)
      (ExecState.init store0)).1 = .ok () ∧
    (settle_offline_fee okEnv [] (.ok ⟨1, 5, 2, [9], 7, (0, 0)⟩)
      (ExecState.init store0)).2.events =
      [.nullifierSpent 5, .walletUpdated 9, .notePosted 7] :=
  c9_event_kinds rfl
    (show u256_to_scalar store0.protocol_pubkey_x = Except.ok 0 from rfl)
    (show u256_to_scalar store0.protocol_pubkey_y = Except.ok 0 from rfl)
    rfl rfl rfl rfl (by decide) (by decide) rfl (by decide) rfl rfl

/-- Counterexample for C10 as stated: a new_wallet call whose statement carries an
empty public-shares vector and whose proof is rejected returns the verification-failed
error — an error return, not a panic — so a call that returns (Ok or Err) need not have
had a non-empty public-shares vector. -/
theorem c10_counterexample :
    (new_wallet rejectingVerifierEnv [] (.ok ⟨2, []⟩) (ExecState.init store0)).1 =
      .err .verificationFailed ∧
    (⟨2, []⟩ : ValidWalletCreateStatement).public_wallet_shares = [] := by
  decide

/-- C10 (amended): the rotation routines extract the public blinder through an
unchecked unwrap, so a rotation (unsigned or signed) invoked with an empty
public-shares vector panics immediately, before touching any state, rather than
returning an error; consequently no rotation that returns had empty shares, and a
new_wallet call can only return Ok when its statement's public-shares vector is
non-empty (an error return may still occur before the blinder is computed, e.g. on a
rejected proof). -/
theorem c10_nonempty_public_shares :
    (∀ env s N root c, rotate_wallet env N root c [] s = (.panicked, s)) ∧
    (∀ env s N root c sig pk,
      rotate_wallet_with_signature env N root c [] sig pk s = (.panicked, s)) ∧
    (∀ env proof stmt s, (new_wallet env proof (.ok stmt) s).1 = .ok () →
      stmt.public_wallet_shares ≠ []) := by
  refine ⟨?_, ?_, ?_⟩
  · intro env s N root c
    unfold rotate_wallet check_wallet_rotation
    rw [@gpb_none [] rfl]
    simp
  · intro env s N root c sig pk
    unfold rotate_wallet_with_signature check_wallet_rotation
    rw [@gpb_none [] rfl]
    simp
  · intro env proof stmt s h hnil
    obtain ⟨t, ht⟩ := fst_ok_inv h
    unfold new_wallet at ht
    obtain ⟨a1, u1, hu1, ht1⟩ := bind_ok_inv ht
    rw [deserialize_ok, engine_pure_apply] at hu1
    injection hu1 with hu1a hu1b
    injection hu1a with hu1a
    subst hu1a
    subst hu1b
    obtain ⟨a2, u2, hu2, ht2⟩ := bind_ok_inv ht1
    obtain ⟨a3, u3, hu3, ht3⟩ := bind_ok_inv ht2
    rw [hnil, log_wallet_update_nil] at ht3
    cases ht3

/-- Witness for C10 (amended): a new_wallet call that returns Ok had non-empty shares. -/
theorem c10_witness : ([3] : List Nat) ≠ [] :=
  c10_nonempty_public_shares.2.2 okEnv [] ⟨2, [3]⟩ (ExecState.init store0) (by decide)
